import Mathlib

/-!
Verification of the verhel descriptor-driven generation pipeline
(src/verhel.py) against its natural-language specification.

The Python program manipulates JSON-like descriptor objects (dicts with
string keys whose values are strings, integers, booleans, null, lists or
nested dicts).  We embed those values as the inductive type PyVal below,
descriptors as association lists in insertion order, and the operations of
the pipeline (global fallback resolution, project validation, info cooking,
VCS querying, backend rendering, the generate orchestrator, and the set
command) as executable Lean functions translated statement by statement
from the source.  Process-global state that the Python runtime could
observe (working directory, clock, filesystem, external commands) is made
explicit as an Env record passed to the functions that read it.
-/

/-- A Python/JSON value as stored in a verhel descriptor: None, int, str,
bool, list, or dict (an ordered association list keyed by strings).
Python floats do not occur in the shipped descriptors and are not modelled. -/
inductive PyVal where
  | none : PyVal
  | vint : Int → PyVal
  | vstr : String → PyVal
  | vbool : Bool → PyVal
  | vlist : List PyVal → PyVal
  | vdict : List (String × PyVal) → PyVal

mutual
/-- Structural equality on PyVal, modelling the Python == operator on the
JSON-like values that appear in descriptors (and the is-None test when one
side is the none constructor). -/
def PyVal.beq : PyVal → PyVal → Bool
  | PyVal.none, PyVal.none => true
  | PyVal.vint a, PyVal.vint b => a == b
  | PyVal.vstr a, PyVal.vstr b => a == b
  | PyVal.vbool a, PyVal.vbool b => a == b
  | PyVal.vlist a, PyVal.vlist b => PyVal.beqL a b
  | PyVal.vdict a, PyVal.vdict b => PyVal.beqD a b
  | _, _ => false
def PyVal.beqL : List PyVal → List PyVal → Bool
  | [], [] => true
  | x :: xs, y :: ys => PyVal.beq x y && PyVal.beqL xs ys
  | _, _ => false
def PyVal.beqD : List (String × PyVal) → List (String × PyVal) → Bool
  | [], [] => true
  | (k, v) :: xs, (l, w) :: ys => k == l && PyVal.beq v w && PyVal.beqD xs ys
  | _, _ => false
end

mutual
theorem PyVal.beq_refl : (v : PyVal) → PyVal.beq v v = true
  | PyVal.none => rfl
  | PyVal.vint a => by simp [PyVal.beq]
  | PyVal.vstr a => by simp [PyVal.beq]
  | PyVal.vbool a => by simp [PyVal.beq]
  | PyVal.vlist xs => by simp [PyVal.beq, PyVal.beqL_refl xs]
  | PyVal.vdict kvs => by simp [PyVal.beq, PyVal.beqD_refl kvs]
theorem PyVal.beqL_refl : (l : List PyVal) → PyVal.beqL l l = true
  | [] => rfl
  | x :: xs => by simp [PyVal.beqL, PyVal.beq_refl x, PyVal.beqL_refl xs]
theorem PyVal.beqD_refl : (l : List (String × PyVal)) → PyVal.beqD l l = true
  | [] => rfl
  | (k, v) :: xs => by simp [PyVal.beqD, PyVal.beq_refl v, PyVal.beqD_refl xs]
end

/-- d.get(key) on a Python dict holding possibly-null values: the stored
value of the first matching key, or None when the key is absent (Python
returns the None object in both the stored-null and the absent case). -/
def pyGet : List (String × PyVal) → String → PyVal
  | [], _ => PyVal.none
  | (k, v) :: r, key => if k = key then v else pyGet r key

/-- d[key] indexing on a Python dict: the stored value of the first
matching key, or a KeyError when the key is absent.  Unlike pyGet this
distinguishes a stored null (ok none) from an absent key (error). -/
def pyIndexE : List (String × PyVal) → String → Except String PyVal
  | [], key => Except.error ("KeyError: " ++ key)
  | (k, v) :: r, key => if k = key then Except.ok v else pyIndexE r key

/-- list(d.keys()) of a dict in insertion order. -/
def keysOf (d : List (String × PyVal)) : List String := d.map Prod.fst

/-- Python list membership x in l, deciding by == (PyVal.beq). -/
def listContainsB (l : List PyVal) (x : PyVal) : Bool :=
  l.any (fun y => PyVal.beq y x)

/-- The Python type() tags distinguished by the validation code.  bool is
its own tag: in Python type(True) is int evaluates to False. -/
inductive PyTy where
  | tnone | tint | tstr | tbool | tlist | tdict
deriving DecidableEq

def pyTypeOf : PyVal → PyTy
  | PyVal.none => PyTy.tnone
  | PyVal.vint _ => PyTy.tint
  | PyVal.vstr _ => PyTy.tstr
  | PyVal.vbool _ => PyTy.tbool
  | PyVal.vlist _ => PyTy.tlist
  | PyVal.vdict _ => PyTy.tdict

mutual
/-- Python repr() of a descriptor value.  String escaping inside repr of a
str is not modelled (plain single quotes are used); no claim depends on it. -/
def pyRepr : PyVal → String
  | PyVal.none => "None"
  | PyVal.vint n => toString n
  | PyVal.vbool b => cond b "True" "False"
  | PyVal.vstr s => "'" ++ s ++ "'"
  | PyVal.vlist xs => "[" ++ pyReprL xs ++ "]"
  | PyVal.vdict kvs => "\x7b" ++ pyReprD kvs ++ "\x7d"
def pyReprL : List PyVal → String
  | [] => ""
  | [x] => pyRepr x
  | x :: xs => pyRepr x ++ ", " ++ pyReprL xs
def pyReprD : List (String × PyVal) → String
  | [] => ""
  | [(k, v)] => "'" ++ k ++ "': " ++ pyRepr v
  | (k, v) :: xs => "'" ++ k ++ "': " ++ pyRepr v ++ ", " ++ pyReprD xs
end

/-- Python str() of a descriptor value, as used by "...".format substitution. -/
def pyStr : PyVal → String
  | PyVal.none => "None"
  | PyVal.vint n => toString n
  | PyVal.vbool b => cond b "True" "False"
  | PyVal.vstr s => s
  | v => pyRepr v

/-- Python str.strip(): drop leading and trailing whitespace (modelled on
the ASCII whitespace characters of Char.isWhitespace). -/
def pyStripChars (s : String) : List Char :=
  ((s.data.dropWhile Char.isWhitespace).reverse.dropWhile Char.isWhitespace).reverse

def pyStrip (s : String) : String := String.mk (pyStripChars s)

/-- Python int(s) on a string: strips surrounding whitespace, accepts an
optional sign followed by decimal digits, and returns none (a ValueError in
Python) otherwise.  Underscore digit separators and non-ASCII digits are
not modelled; no descriptor or command output in this program uses them. -/
def natOfDigits (cs : List Char) : Option Nat :=
  if cs = [] then Option.none
  else if cs.all Char.isDigit then
    some (cs.foldl (fun a c => a * 10 + (c.toNat - 48)) 0)
  else Option.none

def pyInt (s : String) : Option Int :=
  match pyStripChars s with
  | [] => Option.none
  | '+' :: rest => (natOfDigits rest).map Int.ofNat
  | '-' :: rest => (natOfDigits rest).map (fun n => -(Int.ofNat n))
  | cs => (natOfDigits cs).map Int.ofNat

/-- Outcome of run_cmd: either the exit code and the captured stdout text,
or err when subprocess.run raised (timeout or spawn failure). -/
inductive CmdResult where
  | ok : Int → String → CmdResult
  | err : CmdResult

/-- The process-global state observable by the Python runtime during one
invocation: the loaded descriptor stores (none models a load failure), the
executable search path, the ability to enter the project directory, the
external command runner, the filesystem reads/writes, the clock and the
working directory (as a posix string, captured after the directory change). -/
structure Env where
  projects  : Option (List (String × PyVal))
  frontends : Option (List (String × PyVal))
  backends  : Option (List (String × PyVal))
  which     : String → Bool
  chdirOk   : Bool
  run       : String → CmdResult
  readFile  : String → Option String
  buildDate : String
  buildTime : String
  cwd       : String
  writeOk   : String → Bool
  saveOk    : Bool

/-- VerHel.empty_project (src/verhel.py lines 444-460). -/
def empty_project : List (String × PyVal) :=
  [("backends", PyVal.vlist []),
   ("exclude", PyVal.vlist []),
   ("frontend", PyVal.none),
   ("license.spdx", PyVal.none),
   ("license.file", PyVal.none),
   ("project.name", PyVal.none),
   ("project.author", PyVal.none),
   ("project.copyright", PyVal.none),
   ("project.description", PyVal.none),
   ("project.directory", PyVal.none),
   ("version.major", PyVal.none),
   ("version.minor", PyVal.none),
   ("version.patch", PyVal.none),
   ("version.pre_release", PyVal.none)]

/-- VerHel.default_project (src/verhel.py lines 462-478). -/
def default_project : List (String × PyVal) :=
  [("backends", PyVal.vlist []),
   ("exclude", PyVal.vlist []),
   ("frontend", PyVal.vstr ""),
   ("license.spdx", PyVal.vstr ""),
   ("license.file", PyVal.vstr ""),
   ("project.name", PyVal.vstr ""),
   ("project.author", PyVal.vstr ""),
   ("project.copyright", PyVal.vstr ""),
   ("project.description", PyVal.vstr ""),
   ("project.directory", PyVal.vstr ""),
   ("version.major", PyVal.vint 0),
   ("version.minor", PyVal.vint 1),
   ("version.patch", PyVal.vint 0),
   ("version.pre_release", PyVal.vstr "")]

/-- The key set of the canonical empty project, iterated by the
dangling-property check. -/
def emptyKeysList : List String := keysOf empty_project

/-- The dget helper local to VerHel.cook_info (src/verhel.py lines
811-819): the descriptor value, falling back to the supplied default, and
failing that to the default-project value for the key. -/
def dget (desc : List (String × PyVal)) (key : String) (default_value : PyVal) : PyVal :=
  match pyGet desc key with
  | PyVal.none =>
      match default_value with
      | PyVal.none => pyGet default_project key
      | dv => dv
  | v => v

/-- VerHel.cook_info (src/verhel.py lines 810-873).  build_info is the dict
produced by get_build_info, vcs_info the dict produced by get_vcs_info (or
an empty dict when the project has no frontend).  The two bracket lookups
build_info and the current-directory read are the only effects; everything
else is pure dict construction in source order. -/
def cook_info (env : Env) (project_name : String) (desc : List (String × PyVal))
    (build_info : List (String × PyVal)) (vcs_info : List (String × PyVal)) :
    Except String (List (String × PyVal)) :=
  match pyIndexE build_info "date", pyIndexE build_info "time" with
  | Except.error e, _ => Except.error e
  | _, Except.error e => Except.error e
  | Except.ok bdate, Except.ok btime =>
    let maj := pyGet desc "version.major"
    let min := pyGet desc "version.minor"
    let pat := pyGet desc "version.patch"
    let pre := pyGet desc "version.pre_release"
    let vstring :=
      match pre with
      | PyVal.none =>
          PyVal.vstr (pyStr maj ++ "." ++ pyStr min ++ "." ++ pyStr pat)
      | p =>
          PyVal.vstr (pyStr maj ++ "." ++ pyStr min ++ "." ++ pyStr pat ++ "-" ++ pyStr p)
    let pre' := match pre with | PyVal.none => PyVal.vstr "" | p => p
    Except.ok
      [("version.major", maj),
       ("version.minor", min),
       ("version.patch", pat),
       ("version.pre_release", pre'),
       ("version.string", vstring),
       ("project.name", dget desc "project.name" (PyVal.vstr project_name)),
       ("project.author", dget desc "project.author" PyVal.none),
       ("project.license", dget desc "license.spdx" PyVal.none),
       ("project.copyright", dget desc "project.copyright" PyVal.none),
       ("project.company", dget desc "project.company" PyVal.none),
       ("project.description", dget desc "project.description" PyVal.none),
       ("project.directory", dget desc "project.directory" PyVal.none),
       ("project.path", PyVal.vstr env.cwd),
       ("license.spdx", pyGet desc "license.spdx"),
       ("license.file", pyGet desc "license.file"),
       ("build.date", bdate),
       ("build.time", btime),
       ("vcs.name", dget desc "frontend" PyVal.none),
       ("vcs.commit_hash", pyGet vcs_info "commit_hash"),
       ("vcs.short_hash", pyGet vcs_info "short_hash"),
       ("vcs.branch", pyGet vcs_info "branch"),
       ("vcs.tag", pyGet vcs_info "tag"),
       ("vcs.commit_count", pyGet vcs_info "commit_count")]

/-- C1: for every project descriptor whose version.major, version.minor
and version.patch are integers, cooking yields
version.string = "major.minor.patch-pre_release" when version.pre_release
is a (non-null) string, and version.string = "major.minor.patch" with
version.pre_release normalized to the empty string when it is null. -/
theorem cook_info_version_string (env : Env) (pname : String)
    (desc bi vi : List (String × PyVal)) (a b c : Int) (dv tv : PyVal)
    (hbd : pyIndexE bi "date" = Except.ok dv)
    (hbt : pyIndexE bi "time" = Except.ok tv)
    (hma : pyGet desc "version.major" = PyVal.vint a)
    (hmi : pyGet desc "version.minor" = PyVal.vint b)
    (hpa : pyGet desc "version.patch" = PyVal.vint c) :
    (∀ p, pyGet desc "version.pre_release" = PyVal.vstr p →
      (cook_info env pname desc bi vi).map
          (fun i => (pyGet i "version.string", pyGet i "version.pre_release"))
        = Except.ok (PyVal.vstr (toString a ++ "." ++ toString b ++ "." ++ toString c ++ "-" ++ p),
            PyVal.vstr p))
    ∧ (pyGet desc "version.pre_release" = PyVal.none →
      (cook_info env pname desc bi vi).map
          (fun i => (pyGet i "version.string", pyGet i "version.pre_release"))
        = Except.ok (PyVal.vstr (toString a ++ "." ++ toString b ++ "." ++ toString c),
            PyVal.vstr "")) := by
  constructor
  · intro p hp
    simp only [cook_info, hbd, hbt, hma, hmi, hpa, hp]
    rfl
  · intro hp
    simp only [cook_info, hbd, hbt, hma, hmi, hpa, hp]
    rfl

def c1env : Env :=
  ⟨some [], some [], some [], fun _ => false, true, fun _ => CmdResult.err,
   fun _ => Option.none, "2021-01-01", "00:00:00", "/", fun _ => true, true⟩

/-- Witness for C1 at a concrete descriptor with version 1.2.3 and a null
pre-release. -/
theorem cook_info_version_string_witness :
    (cook_info c1env "p"
        [("version.major", PyVal.vint 1), ("version.minor", PyVal.vint 2),
         ("version.patch", PyVal.vint 3)]
        [("date", PyVal.vstr "d"), ("time", PyVal.vstr "t")] []).map
        (fun i => (pyGet i "version.string", pyGet i "version.pre_release"))
      = Except.ok (PyVal.vstr "1.2.3", PyVal.vstr "") := by
  have h := (cook_info_version_string c1env "p"
    [("version.major", PyVal.vint 1), ("version.minor", PyVal.vint 2),
     ("version.patch", PyVal.vint 3)]
    [("date", PyVal.vstr "d"), ("time", PyVal.vstr "t")] []
    1 2 3 (PyVal.vstr "d") (PyVal.vstr "t") rfl rfl rfl rfl rfl).2 rfl
  simpa using h

/-- VerHel.use_global_desc_values (src/verhel.py lines 587-603): iterate
the project descriptor's items and, for every key whose value is null,
assign the global descriptor's value for the same key (glob.get, so null
when the global lacks the key).  glob_desc is the store lookup of the
global name; Python returns unchanged when the lookup gives None. -/
def use_global_desc_values (desc : List (String × PyVal))
    (glob_desc : Option (List (String × PyVal))) : List (String × PyVal) :=
  match glob_desc with
  | Option.none => desc
  | some g =>
      desc.map (fun kv =>
        match kv.2 with
        | PyVal.none => (kv.1, pyGet g kv.1)
        | _ => kv)

/-- C2: with a global descriptor present, use_global_desc_values replaces
exactly the keys of the project whose value is null with the global's value
for the same key, and leaves every key with a non-null value unchanged. -/
theorem use_global_only_replaces_null (desc g : List (String × PyVal)) (k : String)
    (hk : k ∈ keysOf desc) :
    (pyGet desc k = PyVal.none →
      pyGet (use_global_desc_values desc (some g)) k = pyGet g k)
    ∧ (pyGet desc k ≠ PyVal.none →
      pyGet (use_global_desc_values desc (some g)) k = pyGet desc k) := by
  induction desc with
  | nil => simp [keysOf] at hk
  | cons hd tl ih =>
      obtain ⟨k0, v0⟩ := hd
      by_cases hkk : k0 = k
      · subst hkk
        cases hv : v0 <;>
          simp [use_global_desc_values, pyGet, hv]
      · have hk' : k ∈ keysOf tl := by
          have hk2 : k ∈ (k0, v0).1 :: List.map Prod.fst tl := by
            simpa only [keysOf, List.map_cons] using hk
          rcases List.mem_cons.mp hk2 with h | h
          · exact absurd h.symm hkk
          · exact h
        have ih' := ih hk'
        constructor
        · intro hnull
          have hnull' : pyGet tl k = PyVal.none := by
            simpa [pyGet, hkk] using hnull
          have := ih'.1 hnull'
          cases hv : v0 <;>
            simpa [use_global_desc_values, pyGet, hkk, hv] using this
        · intro hnn
          have hnn' : pyGet tl k ≠ PyVal.none := by
            simpa [pyGet, hkk] using hnn
          have := ih'.2 hnn'
          cases hv : v0 <;>
            simpa [use_global_desc_values, pyGet, hkk, hv] using this

/-- Witness for C2: the null key a is replaced by the global's value while
the non-null key b keeps its project value. -/
theorem use_global_only_replaces_null_witness :
    pyGet (use_global_desc_values
        [("a", PyVal.none), ("b", PyVal.vint 1)]
        (some [("a", PyVal.vstr "x"), ("b", PyVal.vstr "y")])) "a"
      = PyVal.vstr "x"
    ∧ pyGet (use_global_desc_values
        [("a", PyVal.none), ("b", PyVal.vint 1)]
        (some [("a", PyVal.vstr "x"), ("b", PyVal.vstr "y")])) "b"
      = PyVal.vint 1 := by
  constructor
  · exact (use_global_only_replaces_null
      [("a", PyVal.none), ("b", PyVal.vint 1)]
      [("a", PyVal.vstr "x"), ("b", PyVal.vstr "y")] "a"
      (by simp [keysOf])).1 rfl
  · exact (use_global_only_replaces_null
      [("a", PyVal.none), ("b", PyVal.vint 1)]
      [("a", PyVal.vstr "x"), ("b", PyVal.vstr "y")] "b"
      (by simp [keysOf])).2 (by simp [pyGet])

/-- Sequencing of two fallible steps: the first raise wins (Python
exception propagation inside the try block of validate_project). -/
def seqE (a : Except String Unit) (b : Except String β) : Except String β :=
  match a with
  | Except.error e => Except.error e
  | Except.ok _ => b

/-- A Python for-loop whose body can raise: runs the body on each element
in order, stopping at the first raise. -/
def forE (f : α → Except String Unit) : List α → Except String Unit
  | [] => Except.ok ()
  | x :: xs => seqE (f x) (forE f xs)

/-- The check helper local to VerHel.validate_project (src/verhel.py lines
481-491): the type of desc.get(key) must be the expected type or NoneType. -/
def checkT (d : List (String × PyVal)) (key : String) (ty : PyTy) : Except String Unit :=
  if pyTypeOf (pyGet d key) = ty ∨ pyTypeOf (pyGet d key) = PyTy.tnone then Except.ok ()
  else Except.error ("invalid type for key '" ++ key ++ "'")

/-- Python list.index(x): index of the first element equal (==) to x. -/
def indexOfP (xs : List PyVal) (x : PyVal) : Nat :=
  match xs with
  | [] => 0
  | y :: ys => if PyVal.beq y x then 0 else indexOfP ys x + 1

/-- d.keys() viewed through asDict: raises AttributeError on a non-dict
(the duplicate loop of validate_project calls .get and .keys on entries). -/
def asDictE (v : PyVal) : Except String (List (String × PyVal)) :=
  match v with
  | PyVal.vdict kvs => Except.ok kvs
  | _ => Except.error "AttributeError: not a dict"

/-- One item check of the first backends loop (src/verhel.py lines
516-521): check(bk, name, str), then raise if the output value is null. -/
def checkItemPair (kvs : List (String × PyVal)) (kv : String × PyVal) : Except String Unit :=
  seqE (checkT kvs kv.1 PyTy.tstr)
    (match kv.2 with
     | PyVal.none => Except.error "backend output is null"
     | _ => Except.ok ())

/-- Body of the first backends loop of validate_project (src/verhel.py
lines 509-521): each entry must be an object with at most one item, whose
output values are strings and non-null.  (A zero-item entry passes this
loop and fails later in the duplicate loop with an IndexError.) -/
def checkEntryShape (bk : PyVal) : Except String Unit :=
  match bk with
  | PyVal.vdict kvs =>
      if kvs.length > 1 then Except.error "only one item in object is allowed"
      else forE (checkItemPair kvs) kvs
  | _ => Except.error "backend is not an object"

/-- Inner step of the duplicate loop (src/verhel.py lines 528-543) for one
other entry: a non-null value under the current name is a duplicated
backend; otherwise the other entry's first key is extracted (IndexError on
an empty dict) and equal outputs are an override error. -/
def checkPair (name : String) (output : PyVal) (entry : PyVal) : Except String Unit :=
  match asDictE entry with
  | Except.error e => Except.error e
  | Except.ok ed =>
      match pyGet ed name with
      | PyVal.none =>
          match keysOf ed with
          | [] => Except.error "IndexError: list index out of range"
          | oname :: _ =>
              if PyVal.beq (pyGet ed oname) output then
                Except.error "backends output override eachother"
              else Except.ok ()
      | _ => Except.error "duplicated backend"

/-- The inner for i in range(len(backends_list)) loop, skipping i == index
(index is list.index of the current entry, i.e. its first occurrence). -/
def dupInner (name : String) (output : PyVal) (index : Nat) :
    Nat → List PyVal → Except String Unit
  | _, [] => Except.ok ()
  | i, e :: rest =>
      if i = index then dupInner name output index (i + 1) rest
      else seqE (checkPair name output e) (dupInner name output index (i + 1) rest)

/-- Body of the second backends loop of validate_project (src/verhel.py
lines 524-543) for one entry bk: take its first key (IndexError when the
dict is empty) and compare against every other position. -/
def checkEntryDups (bks : List PyVal) (bk : PyVal) : Except String Unit :=
  match asDictE bk with
  | Except.error e => Except.error e
  | Except.ok d =>
      match keysOf d with
      | [] => Except.error "IndexError: list index out of range"
      | name :: _ => dupInner name (pyGet d name) (indexOfP bks bk) 0 bks

/-- The backends section of validate_project (src/verhel.py lines
505-543), applied to the value of desc.get("backends"): skipped when null,
type error when not a list, otherwise the shape loop then the duplicate
loop. -/
def validate_backends (bv : PyVal) : Except String Unit :=
  match bv with
  | PyVal.none => Except.ok ()
  | PyVal.vlist bks =>
      seqE (forE checkEntryShape bks) (forE (checkEntryDups bks) bks)
  | _ => Except.error "invalid type for key 'backends'"

/-- The try-block of VerHel.validate_project (src/verhel.py lines
495-558) on a descriptor that is an object: the typed field checks in
source order, with the backends section in the middle. -/
def validate_core (d : List (String × PyVal)) : Except String Unit :=
  seqE (checkT d "version.major" PyTy.tint)
  (seqE (checkT d "version.minor" PyTy.tint)
  (seqE (checkT d "version.patch" PyTy.tint)
  (seqE (checkT d "version.pre_release" PyTy.tstr)
  (seqE (validate_backends (pyGet d "backends"))
  (seqE (checkT d "frontend" PyTy.tstr)
  (seqE (checkT d "license.spdx" PyTy.tstr)
  (seqE (checkT d "license.file" PyTy.tstr)
  (seqE (checkT d "project.author" PyTy.tstr)
  (seqE (checkT d "project.copyright" PyTy.tstr)
  (seqE (checkT d "project.company" PyTy.tstr)
  (seqE (checkT d "project.description" PyTy.tstr)
  (seqE (checkT d "project.directory" PyTy.tstr)
  (seqE (checkT d "project.name" PyTy.tstr)
        (checkT d "exclude" PyTy.tlist))))))))))))))

/-- The dangling-property pass (src/verhel.py lines 568-572): every
descriptor key outside the canonical empty-project key set, in order. -/
def danglingKeys (d : List (String × PyVal)) : List String :=
  (keysOf d).filter (fun s => !decide (s ∈ emptyKeysList))

/-- VerHel.validate_project (src/verhel.py lines 480-574): fetch the
descriptor from the store, require it to be an object, run the typed
checks, and on success report the dangling-property warnings.  An error
models the VerHelError(PROJECT_VALIDATION_FAILED) raise. -/
def validate_project (ps : List (String × PyVal)) (project_name : String) :
    Except String (List String) :=
  match pyGet ps project_name with
  | PyVal.vdict d =>
      match validate_core d with
      | Except.error e => Except.error e
      | Except.ok _ => Except.ok (danglingKeys d)
  | _ => Except.error "project description is not an object"

/-- Boolean success test of a fallible step. -/
def isOkE : Except String α → Bool
  | Except.ok _ => true
  | Except.error _ => false

theorem seqE_ok {a : Except String Unit} {b : Except String β} {u : β}
    (h : seqE a b = Except.ok u) : a = Except.ok () ∧ b = Except.ok u := by
  cases a with
  | error e => simp [seqE] at h
  | ok v => cases v; exact ⟨rfl, h⟩

theorem forE_ok {f : α → Except String Unit} {l : List α}
    (h : forE f l = Except.ok ()) : ∀ x ∈ l, f x = Except.ok () := by
  induction l with
  | nil => intro x hx; simp at hx
  | cons hd tl ih =>
      intro x hx
      obtain ⟨h1, h2⟩ := seqE_ok (by simpa [forE] using h)
      rcases List.mem_cons.mp hx with rfl | hx'
      · exact h1
      · exact ih h2 x hx'

theorem indexOfP_le {xs : List PyVal} {x : PyVal} :
    ∀ {i : Nat}, xs.get? i = some x → indexOfP xs x ≤ i := by
  induction xs with
  | nil => intro i h; simp at h
  | cons hd tl ih =>
      intro i h
      by_cases hb : PyVal.beq hd x = true
      · simp [indexOfP, hb]
      · cases i with
        | zero =>
            have : hd = x := by simpa using h
            subst this
            exact absurd (PyVal.beq_refl hd) hb
        | succ i' =>
            have h' : tl.get? i' = some x := by simpa using h
            have := ih h'
            simp [indexOfP, hb]
            omega

theorem checkEntryShape_ok {bk : PyVal} (h : checkEntryShape bk = Except.ok ()) :
    ∃ kvs, bk = PyVal.vdict kvs ∧ kvs.length ≤ 1 ∧
      ∀ kv ∈ kvs, kv.2 ≠ PyVal.none := by
  cases bk with
  | vdict kvs =>
      refine ⟨kvs, rfl, ?_, ?_⟩
      · by_contra hlen
        simp only [checkEntryShape, if_pos (by omega : kvs.length > 1)] at h
        simp at h
      · intro kv hkv
        have hlen : ¬ kvs.length > 1 := by
          by_contra hlen
          simp only [checkEntryShape, if_pos hlen] at h
          simp at h
        have hf : forE (checkItemPair kvs) kvs = Except.ok () := by
          simpa only [checkEntryShape, if_neg hlen] using h
        have hone := forE_ok hf kv hkv
        obtain ⟨_, h2⟩ := seqE_ok (by simpa [checkItemPair] using hone)
        intro hnull
        rw [hnull] at h2
        simp at h2
  | none => simp [checkEntryShape] at h
  | vint n => simp [checkEntryShape] at h
  | vstr s => simp [checkEntryShape] at h
  | vbool b => simp [checkEntryShape] at h
  | vlist l => simp [checkEntryShape] at h

theorem checkPair_ok {name : String} {output entry : PyVal}
    (h : checkPair name output entry = Except.ok ()) :
    ∃ ed, entry = PyVal.vdict ed ∧ pyGet ed name = PyVal.none ∧
      ∃ oname rest, keysOf ed = oname :: rest ∧
        PyVal.beq (pyGet ed oname) output = false := by
  cases entry with
  | vdict ed =>
      refine ⟨ed, rfl, ?_⟩
      rw [checkPair] at h
      simp only [asDictE] at h
      cases hg : pyGet ed name with
      | none =>
          simp only [hg] at h
          refine ⟨rfl, ?_⟩
          cases hk : keysOf ed with
          | nil => simp only [hk] at h; simp at h
          | cons oname r =>
              simp only [hk] at h
              refine ⟨oname, r, rfl, ?_⟩
              by_contra hbq
              simp only [Bool.not_eq_false] at hbq
              simp [hbq] at h
      | vint n => simp [hg] at h
      | vstr s => simp [hg] at h
      | vbool b => simp [hg] at h
      | vlist l => simp [hg] at h
      | vdict kvs => simp [hg] at h
  | none => simp [checkPair, asDictE] at h
  | vint n => simp [checkPair, asDictE] at h
  | vstr s => simp [checkPair, asDictE] at h
  | vbool b => simp [checkPair, asDictE] at h
  | vlist l => simp [checkPair, asDictE] at h

theorem dupInner_ok {name : String} {output : PyVal} {index : Nat} :
    ∀ (l : List PyVal) (i : Nat), dupInner name output index i l = Except.ok () →
      ∀ j e, l.get? j = some e → i + j ≠ index →
        checkPair name output e = Except.ok () := by
  intro l
  induction l with
  | nil => intro i h j e hj; simp at hj
  | cons hd tl ih =>
      intro i h j e hj hne
      by_cases hi : i = index
      · rw [dupInner, if_pos hi] at h
        cases j with
        | zero => omega
        | succ j' =>
            have hj' : tl.get? j' = some e := by simpa using hj
            exact ih (i + 1) h j' e hj' (by omega)
      · rw [dupInner, if_neg hi] at h
        obtain ⟨h1, h2⟩ := seqE_ok h
        cases j with
        | zero =>
            have : hd = e := by simpa using hj
            subst this; exact h1
        | succ j' =>
            have hj' : tl.get? j' = some e := by simpa using hj
            exact ih (i + 1) h2 j' e hj' (by omega)

theorem validate_backends_split {bks : List PyVal}
    (h : validate_backends (PyVal.vlist bks) = Except.ok ()) :
    forE checkEntryShape bks = Except.ok () ∧
    forE (checkEntryDups bks) bks = Except.ok () :=
  seqE_ok (by simpa [validate_backends] using h)

theorem validate_backends_single_key {bks : List PyVal}
    (h : validate_backends (PyVal.vlist bks) = Except.ok ()) :
    ∀ i bk, bks.get? i = some bk →
      ∃ k v, bk = PyVal.vdict [(k, v)] ∧ v ≠ PyVal.none := by
  obtain ⟨hs, hd⟩ := validate_backends_split h
  intro i bk hi
  have hmem : bk ∈ bks := List.get?_mem hi
  obtain ⟨kvs, rfl, hlen, hnn⟩ := checkEntryShape_ok (forE_ok hs bk hmem)
  have h2 := forE_ok hd _ hmem
  have hne : ∃ nm r2, keysOf kvs = nm :: r2 := by
    cases hk : keysOf kvs with
    | nil =>
        rw [checkEntryDups] at h2
        simp only [asDictE] at h2
        rw [hk] at h2
        simp at h2
    | cons nm r => exact ⟨nm, r, rfl⟩
  obtain ⟨nm, r2, hk⟩ := hne
  cases kvs with
  | nil => simp [keysOf] at hk
  | cons kv0 tl =>
      cases tl with
      | nil =>
          obtain ⟨k0, v0⟩ := kv0
          exact ⟨k0, v0, rfl, hnn (k0, v0) (by simp)⟩
      | cons kv1 tl2 => simp at hlen

theorem validate_backends_distinct {bks : List PyVal} {i j : Nat}
    {ki kj : String} {vi vj : PyVal}
    (h : validate_backends (PyVal.vlist bks) = Except.ok ())
    (hij : i < j)
    (hi : bks.get? i = some (PyVal.vdict [(ki, vi)]))
    (hj : bks.get? j = some (PyVal.vdict [(kj, vj)])) :
    ki ≠ kj ∧ vi ≠ vj := by
  have hvjn : vj ≠ PyVal.none := by
    obtain ⟨k', v', he, hv⟩ := validate_backends_single_key h j _ hj
    have : kj = k' ∧ vj = v' := by
      simpa using he
    rw [this.2]; exact hv
  obtain ⟨hs, hd⟩ := validate_backends_split h
  have hdi := forE_ok hd _ (List.get?_mem hi)
  simp only [checkEntryDups, asDictE, keysOf, List.map_cons, List.map_nil] at hdi
  have hout : pyGet [(ki, vi)] ki = vi := by simp [pyGet]
  rw [hout] at hdi
  have hidx : indexOfP bks (PyVal.vdict [(ki, vi)]) ≤ i := indexOfP_le hi
  have hcp := dupInner_ok bks 0 hdi j _ hj (by omega)
  obtain ⟨ed, he, hnone, oname, r2, hko, hbq⟩ := checkPair_ok hcp
  have hed : [(kj, vj)] = ed := by simpa using he
  subst hed
  have h0 : kj :: ([] : List String) = oname :: r2 := by
    simpa [keysOf] using hko
  injection h0 with h1 h2
  constructor
  · intro hkk
    rw [hkk] at hnone
    simp [pyGet] at hnone
    exact hvjn hnone
  · intro hvv
    rw [← h1] at hbq
    have hgv : pyGet [(kj, vj)] kj = vj := by simp [pyGet]
    rw [hgv] at hbq
    rw [hvv] at hbq
    rw [PyVal.beq_refl vj] at hbq
    simp at hbq

/-- The ways a backends list can violate the invariants of C3: an entry
that is not a single-key object, an entry carrying a null output value,
two entries sharing a backend name, or two entries sharing an output. -/
def BadBackends (bks : List PyVal) : Prop :=
  (∃ i bk, bks.get? i = some bk ∧ ∀ k v, bk ≠ PyVal.vdict [(k, v)]) ∨
  (∃ i kvs k, bks.get? i = some (PyVal.vdict kvs) ∧ (k, PyVal.none) ∈ kvs) ∨
  (∃ i j di dj k vi vj, i ≠ j ∧ bks.get? i = some (PyVal.vdict di) ∧
     bks.get? j = some (PyVal.vdict dj) ∧ (k, vi) ∈ di ∧ (k, vj) ∈ dj) ∨
  (∃ i j di dj ki kj v, i ≠ j ∧ bks.get? i = some (PyVal.vdict di) ∧
     bks.get? j = some (PyVal.vdict dj) ∧ (ki, v) ∈ di ∧ (kj, v) ∈ dj)

/-- C3: validate_project fails (the project-validation-failed result)
whenever the backends list has a duplicate backend name, a duplicate
output path, an entry that is not a single-key object, or an entry whose
output value is null. -/
theorem validate_rejects_bad_backends (ps : List (String × PyVal)) (pname : String)
    (d : List (String × PyVal)) (bks : List PyVal)
    (hd : pyGet ps pname = PyVal.vdict d)
    (hb : pyGet d "backends" = PyVal.vlist bks)
    (hbad : BadBackends bks) :
    isOkE (validate_project ps pname) = false := by
  cases hv : validate_project ps pname with
  | error e => rfl
  | ok w =>
    exfalso
    simp only [validate_project, hd] at hv
    have hcore : validate_core d = Except.ok () := by
      cases hc : validate_core d with
      | error e => rw [hc] at hv; simp at hv
      | ok u => cases u; rfl
    have hvb : validate_backends (PyVal.vlist bks) = Except.ok () := by
      have h1 := (seqE_ok (by simpa [validate_core] using hcore)).2
      have h2 := (seqE_ok h1).2
      have h3 := (seqE_ok h2).2
      have h4 := (seqE_ok h3).2
      have h5 := (seqE_ok h4).1
      rwa [hb] at h5
    have hsk := validate_backends_single_key hvb
    rcases hbad with ⟨i, bk, hi, hnsk⟩ | ⟨i, kvs, k, hi, hmem⟩ |
      ⟨i, j, di, dj, k, vi, vj, hij, hi, hj, hmi, hmj⟩ |
      ⟨i, j, di, dj, ki, kj, v, hij, hi, hj, hmi, hmj⟩
    · obtain ⟨k, v, he, _⟩ := hsk i bk hi
      exact hnsk k v he
    · obtain ⟨k0, v0, he, hnn⟩ := hsk i _ hi
      have hkvs : kvs = [(k0, v0)] := by simpa using he
      subst hkvs
      have hm := List.mem_singleton.mp hmem
      have hv0 : v0 = PyVal.none := (congrArg Prod.snd hm).symm
      exact hnn hv0
    · obtain ⟨ki0, vi0, hei, _⟩ := hsk i _ hi
      obtain ⟨kj0, vj0, hej, _⟩ := hsk j _ hj
      have hdi : di = [(ki0, vi0)] := by simpa using hei
      have hdj : dj = [(kj0, vj0)] := by simpa using hej
      subst hdi; subst hdj
      have hki0 : ki0 = k := (congrArg Prod.fst (List.mem_singleton.mp hmi)).symm
      have hkj0 : kj0 = k := (congrArg Prod.fst (List.mem_singleton.mp hmj)).symm
      rcases Nat.lt_trichotomy i j with hlt | heq | hgt
      · exact (validate_backends_distinct hvb hlt hi hj).1 (hki0.trans hkj0.symm)
      · exact hij heq
      · exact (validate_backends_distinct hvb hgt hj hi).1 (hkj0.trans hki0.symm)
    · obtain ⟨ki0, vi0, hei, _⟩ := hsk i _ hi
      obtain ⟨kj0, vj0, hej, _⟩ := hsk j _ hj
      have hdi : di = [(ki0, vi0)] := by simpa using hei
      have hdj : dj = [(kj0, vj0)] := by simpa using hej
      subst hdi; subst hdj
      have hvi0 : vi0 = v := (congrArg Prod.snd (List.mem_singleton.mp hmi)).symm
      have hvj0 : vj0 = v := (congrArg Prod.snd (List.mem_singleton.mp hmj)).symm
      rcases Nat.lt_trichotomy i j with hlt | heq | hgt
      · exact (validate_backends_distinct hvb hlt hi hj).2 (hvi0.trans hvj0.symm)
      · exact hij heq
      · exact (validate_backends_distinct hvb hgt hj hi).2 (hvj0.trans hvi0.symm)

def c3store : List (String × PyVal) :=
  [("p", PyVal.vdict [("backends", PyVal.vlist
      [PyVal.vdict [("cpp", PyVal.vstr "a")],
       PyVal.vdict [("cpp", PyVal.vstr "b")]])])]

/-- Witness for C3: a project whose two backend entries share the name
cpp fails validation. -/
theorem validate_rejects_bad_backends_witness :
    isOkE (validate_project c3store "p") = false := by
  have hbad : BadBackends
      [PyVal.vdict [("cpp", PyVal.vstr "a")],
       PyVal.vdict [("cpp", PyVal.vstr "b")]] :=
    Or.inr (Or.inr (Or.inl ⟨0, 1, [("cpp", PyVal.vstr "a")], [("cpp", PyVal.vstr "b")],
      "cpp", PyVal.vstr "a", PyVal.vstr "b", by omega, rfl, rfl, by simp, by simp⟩))
  exact validate_rejects_bad_backends c3store "p" _ _ rfl rfl hbad

/-- Counterexample for C5 as stated: project.company is absent from the
canonical empty-project key set, yet a non-string project.company value
makes validate_project fail (the type-check list validates it), so a key
outside the empty-project set is not always a mere warning. -/
theorem dangling_company_cex :
    ("project.company" ∈ emptyKeysList → False)
    ∧ isOkE (validate_project
        [("p", PyVal.vdict [("project.company", PyVal.vint 1)])] "p") = false := by
  constructor
  · decide
  · rfl

theorem pyGet_append_ne (d : List (String × PyVal)) (k : String) (v : PyVal)
    (k' : String) (h : k' ≠ k) :
    pyGet (d ++ [(k, v)]) k' = pyGet d k' := by
  induction d with
  | nil => simp [pyGet, Ne.symm h]
  | cons hd tl ih =>
      obtain ⟨k0, v0⟩ := hd
      by_cases hk0 : k0 = k'
      · simp [pyGet, hk0]
      · simp [pyGet, hk0, ih]

theorem checkT_append (d : List (String × PyVal)) (k : String) (v : PyVal)
    (key : String) (ty : PyTy) (h : key ≠ k) :
    checkT (d ++ [(k, v)]) key ty = checkT d key ty := by
  simp [checkT, pyGet_append_ne d k v key h]

/-- C5 (amended): a key outside the canonical empty-project key set that
is not project.company never changes the validation verdict -- appending
it to a descriptor preserves an error verbatim and preserves success --
and on success it is reported as exactly one more dangling-property
warning.  (project.company itself is the exception: it is type-checked,
see dangling_company_cex.) -/
theorem dangling_key_warn_only (d : List (String × PyVal)) (pname k : String)
    (v : PyVal) (hk1 : k ∉ emptyKeysList) (hk2 : k ≠ "project.company") :
    (∀ e, validate_project [(pname, PyVal.vdict d)] pname = Except.error e →
       validate_project [(pname, PyVal.vdict (d ++ [(k, v)]))] pname = Except.error e)
    ∧ (∀ w, validate_project [(pname, PyVal.vdict d)] pname = Except.ok w →
       validate_project [(pname, PyVal.vdict (d ++ [(k, v)]))] pname
         = Except.ok (w ++ [k])) := by
  have hne : ∀ s, s ∈ emptyKeysList → k ≠ s := by
    intro s hs he; subst he; exact hk1 hs
  have hcore : validate_core (d ++ [(k, v)]) = validate_core d := by
    unfold validate_core
    rw [checkT_append d k v "version.major" PyTy.tint (hne "version.major" (by decide)).symm,
        checkT_append d k v "version.minor" PyTy.tint (hne "version.minor" (by decide)).symm,
        checkT_append d k v "version.patch" PyTy.tint (hne "version.patch" (by decide)).symm,
        checkT_append d k v "version.pre_release" PyTy.tstr (hne "version.pre_release" (by decide)).symm,
        pyGet_append_ne d k v "backends" (hne "backends" (by decide)).symm,
        checkT_append d k v "frontend" PyTy.tstr (hne "frontend" (by decide)).symm,
        checkT_append d k v "license.spdx" PyTy.tstr (hne "license.spdx" (by decide)).symm,
        checkT_append d k v "license.file" PyTy.tstr (hne "license.file" (by decide)).symm,
        checkT_append d k v "project.author" PyTy.tstr (hne "project.author" (by decide)).symm,
        checkT_append d k v "project.copyright" PyTy.tstr (hne "project.copyright" (by decide)).symm,
        checkT_append d k v "project.company" PyTy.tstr hk2.symm,
        checkT_append d k v "project.description" PyTy.tstr (hne "project.description" (by decide)).symm,
        checkT_append d k v "project.directory" PyTy.tstr (hne "project.directory" (by decide)).symm,
        checkT_append d k v "project.name" PyTy.tstr (hne "project.name" (by decide)).symm,
        checkT_append d k v "exclude" PyTy.tlist (hne "exclude" (by decide)).symm]
  have hdang : danglingKeys (d ++ [(k, v)]) = danglingKeys d ++ [k] := by
    simp [danglingKeys, keysOf, List.filter_append, hk1]
  have hproj : ∀ X : List (String × PyVal),
      validate_project [(pname, PyVal.vdict X)] pname
        = match validate_core X with
          | Except.error e => Except.error e
          | Except.ok _ => Except.ok (danglingKeys X) := by
    intro X
    simp [validate_project, pyGet]
  constructor
  · intro e he
    rw [hproj] at he ⊢
    rw [hcore]
    cases hc : validate_core d with
    | error e' => rw [hc] at he; simpa using he
    | ok u => rw [hc] at he; simp at he
  · intro w hw
    rw [hproj] at hw ⊢
    rw [hcore, hdang]
    cases hc : validate_core d with
    | error e' => rw [hc] at hw; simp at hw
    | ok u =>
        rw [hc] at hw
        cases u
        have hwd : danglingKeys d = w := by simpa using hw
        rw [hwd]

/-- Witness for C5: adding the unknown key custom to an otherwise empty
(and valid) descriptor keeps validation successful and reports custom as
a dangling-property warning. -/
theorem dangling_key_warn_only_witness :
    validate_project [("p", PyVal.vdict [("custom", PyVal.vint 3)])] "p"
      = Except.ok ["custom"] := by
  have h := (dangling_key_warn_only [] "p" "custom" (PyVal.vint 3)
    (by decide) (by decide)).2 [] (by rfl)
  simpa using h

/-- Apply a conversion directive of the VerHelFormatter (src/verhel.py
lines 279-286): u and l are the custom upper/lower conversions, s and r
the standard str/repr ones, anything else is a ValueError.  Case folding
is modelled ASCII-only (String.toUpper/toLower). -/
def formatArg (v : PyVal) : Option Char → Except String String
  | Option.none => Except.ok (pyStr v)
  | some 'u' => Except.ok (pyStr v).toUpper
  | some 'l' => Except.ok (pyStr v).toLower
  | some 's' => Except.ok (pyStr v)
  | some 'r' => Except.ok (pyRepr v)
  | some _ => Except.error "ValueError: unknown conversion specifier"

/-- Look up a positional argument of fmtr.format(template, a0, a1). -/
def argAt (a0 : PyVal) (a1 : PyVal) : Nat → Except String PyVal
  | 0 => Except.ok a0
  | 1 => Except.ok a1
  | _ => Except.error "IndexError: tuple index out of range"

/-- Parse one replacement field body (the text between braces): an
optional explicit index (empty means automatic numbering), an optional
single-character conversion after an exclamation mark, and an optional
format spec after a colon (only the empty spec is modelled; the shipped
templates use none).  Returns the substituted text and the next automatic
argument counter. -/
def formatField (a0 a1 : PyVal) (auto : Nat) (body : List Char) :
    Except String (String × Nat) :=
  let (beforeColon, spec) :=
    match body.span (fun c => c ≠ ':') with
    | (b, []) => (b, ([] : List Char))
    | (b, _ :: sp) => (b, sp)
  if spec ≠ [] then Except.error "format spec not modelled"
  else
    let (namePart, convPart) :=
      match beforeColon.span (fun c => c ≠ '!') with
      | (n, []) => (n, Option.none)
      | (n, _ :: cs) =>
          match cs with
          | [c] => (n, some c)
          | _ => (n, some ' ')
    match namePart with
    | [] => do
        let v ← argAt a0 a1 auto
        let s ← formatArg v convPart
        Except.ok (s, auto + 1)
    | cs => do
        match natOfDigits cs with
        | some idx => do
            let v ← argAt a0 a1 idx
            let s ← formatArg v convPart
            Except.ok (s, auto)
        | Option.none => Except.error "KeyError: named fields not modelled"

/-- Scan to the first closing brace: the field body before it and the
remaining text after it, or none when the brace is missing. -/
def takeField : List Char → Option (List Char × List Char)
  | [] => Option.none
  | c :: rest =>
      if c = '}' then some ([], rest)
      else
        match takeField rest with
        | Option.none => Option.none
        | some (body, r2) => some (c :: body, r2)

theorem takeField_length : ∀ {l body rest2 : List Char},
    takeField l = some (body, rest2) → rest2.length < l.length := by
  intro l
  induction l with
  | nil => intro body rest2 h; simp [takeField] at h
  | cons c rest ih =>
      intro body rest2 h
      by_cases hc : c = '}'
      · rw [takeField, if_pos hc] at h
        simp at h
        obtain ⟨h1, h2⟩ := h
        subst h2
        simp
      · rw [takeField, if_neg hc] at h
        cases ht : takeField rest with
        | none => rw [ht] at h; simp at h
        | some p =>
            obtain ⟨b2, r2⟩ := p
            rw [ht] at h
            simp at h
            have := ih ht
            rw [← h.2]
            simp
            omega

/-- Core loop of string.Formatter.vformat for a two-argument positional
format call: literal text is copied, doubled braces escape, and each
replacement field is substituted via formatField.  The first argument is
recursion fuel: the remaining text shrinks at every step, so a start fuel
of one more than the template length (supplied by pyFormatT) can never run
out; it only makes the recursion structural. -/
def pyFormatGo (a0 a1 : PyVal) : Nat → Nat → List Char → Except String String
  | 0, _, _ => Except.error "unreachable: format fuel exhausted"
  | _ + 1, _, [] => Except.ok ""
  | fuel + 1, auto, '{' :: '{' :: rest => do
      let s ← pyFormatGo a0 a1 fuel auto rest
      Except.ok ("\x7b" ++ s)
  | fuel + 1, auto, '}' :: '}' :: rest => do
      let s ← pyFormatGo a0 a1 fuel auto rest
      Except.ok ("\x7d" ++ s)
  | _ + 1, _, ['{'] => Except.error "ValueError: single brace encountered"
  | fuel + 1, auto, '{' :: c :: rest =>
      (match takeField (c :: rest) with
       | Option.none => Except.error "ValueError: expected closing brace"
       | some (body, rest2) => do
          let (s, auto') ← formatField a0 a1 auto body
          let t ← pyFormatGo a0 a1 fuel auto' rest2
          Except.ok (s ++ t))
  | _ + 1, _, '}' :: _ => Except.error "ValueError: single brace encountered"
  | fuel + 1, auto, c :: rest => do
      let s ← pyFormatGo a0 a1 fuel auto rest
      Except.ok (c.toString ++ s)

/-- fmtr.format(template, a0, a1) with the VerHelFormatter: the template
must be a string (string.Formatter raises on anything else). -/
def pyFormatT (template : PyVal) (a0 a1 : PyVal) : Except String String :=
  match template with
  | PyVal.vstr t => pyFormatGo a0 a1 (t.data.length + 1) 0 t.data
  | _ => Except.error "TypeError: format template is not a string"

/-- Python str.rstrip(): drop trailing whitespace. -/
def strRstrip (s : String) : String :=
  String.mk (s.data.reverse.dropWhile Char.isWhitespace).reverse

/-- Python str.splitlines() restricted to newline-separated text (the
rstripped license text); carriage returns are not modelled. -/
def splitLinesNl (s : String) : List String :=
  match s.data with
  | [] => []
  | _ => s.splitOn "\n"

/-- The license/SPDX header writes of VerHel.backend_generate
(src/verhel.py lines 886-895): each license line prefixed by the comment
marker, then a blank comment line (only when license text was written)
and the SPDX identifier line when cooked license.spdx is non-null. -/
def licenseHeader (source_comment : PyVal) (license_text : Option String)
    (spdx : PyVal) : String :=
  let lic :=
    match license_text with
    | Option.none => ""
    | some t =>
        String.join ((splitLinesNl (strRstrip t)).map
          (fun line => pyStr source_comment ++ " " ++ line ++ "\n"))
  let sp :=
    match spdx with
    | PyVal.none => ""
    | v =>
        (match license_text with
         | some _ => pyStr source_comment ++ "\n"
         | Option.none => "") ++
        pyStr source_comment ++ " SPDX-License-Identifier: " ++ pyStr v ++ "\n"
  lic ++ sp

/-- ss.write(x) requires a string in Python; anything else raises. -/
def asStrE (v : PyVal) : Except String String :=
  match v with
  | PyVal.vstr s => Except.ok s
  | _ => Except.error "TypeError: write argument must be str"

def nullWarnMsg (k : String) : String := "emiting value '" ++ k ++ "' is null"

/-- The Python type name used in the unknown-type warning message. -/
def pyTypeName : PyVal → String
  | PyVal.none => "NoneType"
  | PyVal.vint _ => "int"
  | PyVal.vstr _ => "str"
  | PyVal.vbool _ => "bool"
  | PyVal.vlist _ => "list"
  | PyVal.vdict _ => "dict"

def typeWarnMsg (v : PyVal) : String :=
  "don't know how to write type '" ++ pyTypeName v ++ ", writing as string'"

/-- One iteration of the variable loop of VerHel.backend_generate
(src/verhel.py lines 900-920): take the entry's first item (StopIteration
on an empty dict, AttributeError on a non-dict), skip excluded keys, index
the cooked values (KeyError when absent), skip null values with a warning,
and format by runtime type: int through format.number, str through
format.string, anything else through format.string with a warning.
Returns the emitted fragment and the warnings logged. -/
def emitVar (format_number format_string : PyVal)
    (cooked : List (String × PyVal)) (excluded : List PyVal) (var : PyVal) :
    Except String (String × List String) :=
  match var with
  | PyVal.vdict ((k, emitName) :: _) =>
      if listContainsB excluded (PyVal.vstr k) then Except.ok ("", [])
      else
        match pyIndexE cooked k with
        | Except.error e => Except.error e
        | Except.ok value =>
            match value with
            | PyVal.none => Except.ok ("", [nullWarnMsg k])
            | PyVal.vint n =>
                (pyFormatT format_number emitName (PyVal.vint n)).map
                  (fun s => (s, []))
            | PyVal.vstr s =>
                (pyFormatT format_string emitName (PyVal.vstr s)).map
                  (fun t => (t, []))
            | other =>
                (pyFormatT format_string emitName other).map
                  (fun t => (t, [typeWarnMsg other]))
  | PyVal.vdict [] => Except.error "StopIteration"
  | _ => Except.error "AttributeError: items"

/-- Combine one loop iteration's fragment/warnings with the rest of the
loop: the first raise wins, otherwise text and warnings concatenate. -/
def stepLV (r1 r2 : Except String (String × List String)) :
    Except String (String × List String) :=
  match r1 with
  | Except.error e => Except.error e
  | Except.ok (s, w) =>
      match r2 with
      | Except.error e => Except.error e
      | Except.ok (s', w') => Except.ok (s ++ s', w ++ w')

/-- The full variable loop, concatenating the emitted fragments and the
warnings in order. -/
def loopVars (format_number format_string : PyVal)
    (cooked : List (String × PyVal)) (excluded : List PyVal) :
    List PyVal → Except String (String × List String)
  | [] => Except.ok ("", [])
  | v :: vs =>
      stepLV (emitVar format_number format_string cooked excluded v)
        (loopVars format_number format_string cooked excluded vs)

/-- Body of VerHel.backend_generate after the field reads (src/verhel.py
lines 886-926): license and SPDX header, the file prologue, one fragment
per var_map entry in list order, the epilogue, and the trailing generator
attribution line.  The result pairs the generated source text with the
warnings logged; an error models an uncaught Python exception. -/
def bgCore (format_number format_string source_begin source_comment source_end : PyVal)
    (cooked : List (String × PyVal)) (license_text : Option String)
    (excluded : List PyVal) (var_map_val : PyVal) :
    Except String (String × List String) :=
  match pyIndexE cooked "license.spdx" with
  | Except.error e => Except.error e
  | Except.ok spdx =>
      let header := licenseHeader source_comment license_text spdx
      match asStrE source_begin with
      | Except.error e => Except.error e
      | Except.ok sb =>
          match var_map_val with
          | PyVal.vlist vars =>
              match loopVars format_number format_string cooked excluded vars with
              | Except.error e => Except.error e
              | Except.ok (body, warns) =>
                  match asStrE source_end with
                  | Except.error e => Except.error e
                  | Except.ok se =>
                      Except.ok
                        (header ++ sb ++ body ++ se ++ "\n" ++
                           pyStr source_comment ++ " generated using verhel.py " ++
                           pyStr source_comment ++ "\n",
                         warns)
          | _ => Except.error "TypeError: var_map is not iterable"

/-- VerHel.backend_generate (src/verhel.py lines 875-926): read the five
format fields and the var_map from the backend descriptor and render.
The env parameter stands for the process state the Python runtime could
observe; the function body never reads it, mirroring the absence of any
such read in the source. -/
def backend_generate (env : Env) (backend : List (String × PyVal))
    (cooked : List (String × PyVal)) (license_text : Option String)
    (excluded : List PyVal) : Except String (String × List String) :=
  bgCore (pyGet backend "format.number") (pyGet backend "format.string")
    (pyGet backend "source.begin") (pyGet backend "source.comment")
    (pyGet backend "source.end") cooked license_text excluded
    (pyGet backend "var_map")


theorem stepLV_ok {r1 r2 : Except String (String × List String)} {s : String}
    {w : List String} (h : stepLV r1 r2 = Except.ok (s, w)) :
    ∃ s1 w1 s2 w2, r1 = Except.ok (s1, w1) ∧ r2 = Except.ok (s2, w2) ∧
      s = s1 ++ s2 ∧ w = w1 ++ w2 := by
  cases r1 with
  | error e => simp [stepLV] at h
  | ok p1 =>
      obtain ⟨s1, w1⟩ := p1
      cases r2 with
      | error e => simp [stepLV] at h
      | ok p2 =>
          obtain ⟨s2, w2⟩ := p2
          simp [stepLV] at h
          exact ⟨s1, w1, s2, w2, rfl, rfl, h.1.symm, h.2.symm⟩

theorem stepLV_map_fst {r1 r2 r3 : Except String (String × List String)}
    (h : r2.map Prod.fst = r3.map Prod.fst) :
    (stepLV r1 r2).map Prod.fst = (stepLV r1 r3).map Prod.fst := by
  cases r1 with
  | error e => rfl
  | ok p =>
      obtain ⟨s, w⟩ := p
      cases r2 with
      | error e =>
          cases r3 with
          | error e2 =>
              have he : e = e2 := by simpa [Except.map] using h
              rw [he]
          | ok p2 => simp [Except.map] at h
      | ok p2 =>
          obtain ⟨s2, w2⟩ := p2
          cases r3 with
          | error e2 => simp [Except.map] at h
          | ok p3 =>
              obtain ⟨s3, w3⟩ := p3
              have hs : s2 = s3 := by simpa [Except.map] using h
              subst hs
              simp [stepLV, Except.map]

theorem loopVars_insert_skip {F S : PyVal} {cooked : List (String × PyVal)}
    {excl : List PyVal} {var : PyVal} {wv : List String}
    (hvar : emitVar F S cooked excl var = Except.ok ("", wv)) :
    ∀ vm1 vm2 : List PyVal,
      ((loopVars F S cooked excl (vm1 ++ var :: vm2)).map Prod.fst
        = (loopVars F S cooked excl (vm1 ++ vm2)).map Prod.fst)
      ∧ (∀ s w, loopVars F S cooked excl (vm1 ++ var :: vm2) = Except.ok (s, w) →
          wv ⊆ w) := by
  intro vm1
  induction vm1 with
  | nil =>
      intro vm2
      constructor
      · show (stepLV (emitVar F S cooked excl var)
            (loopVars F S cooked excl vm2)).map Prod.fst
          = (loopVars F S cooked excl vm2).map Prod.fst
        rw [hvar]
        cases hlv : loopVars F S cooked excl vm2 with
        | error e => rfl
        | ok p => obtain ⟨s', w'⟩ := p; simp [stepLV, Except.map]
      · intro s w hw
        have hw' : stepLV (emitVar F S cooked excl var)
            (loopVars F S cooked excl vm2) = Except.ok (s, w) := hw
        obtain ⟨s1, w1, s2, w2, h1, h2, hs, hww⟩ := stepLV_ok hw'
        rw [hvar] at h1
        have h1' : "" = s1 ∧ wv = w1 := by simpa using h1
        rw [hww, ← h1'.2]
        exact List.subset_append_left wv w2
  | cons x vm1' ih =>
      intro vm2
      have ih' := ih vm2
      constructor
      · show (stepLV (emitVar F S cooked excl x)
            (loopVars F S cooked excl (vm1' ++ var :: vm2))).map Prod.fst
          = (stepLV (emitVar F S cooked excl x)
            (loopVars F S cooked excl (vm1' ++ vm2))).map Prod.fst
        exact stepLV_map_fst ih'.1
      · intro s w hw
        have hw' : stepLV (emitVar F S cooked excl x)
            (loopVars F S cooked excl (vm1' ++ var :: vm2)) = Except.ok (s, w) := hw
        obtain ⟨s1, w1, s2, w2, h1, h2, hs, hww⟩ := stepLV_ok hw'
        have hsub := ih'.2 s2 w2 h2
        rw [hww]
        exact hsub.trans (List.subset_append_right w1 w2)

theorem loopVars_insert_noop {F S : PyVal} {cooked : List (String × PyVal)}
    {excl : List PyVal} {var : PyVal}
    (hvar : emitVar F S cooked excl var = Except.ok ("", [])) :
    ∀ vm1 vm2 : List PyVal,
      loopVars F S cooked excl (vm1 ++ var :: vm2)
        = loopVars F S cooked excl (vm1 ++ vm2) := by
  intro vm1
  induction vm1 with
  | nil =>
      intro vm2
      show stepLV (emitVar F S cooked excl var) (loopVars F S cooked excl vm2)
        = loopVars F S cooked excl vm2
      rw [hvar]
      cases hlv : loopVars F S cooked excl vm2 with
      | error e => rfl
      | ok p => obtain ⟨s', w'⟩ := p; simp [stepLV]
  | cons x vm1' ih =>
      intro vm2
      show stepLV (emitVar F S cooked excl x)
          (loopVars F S cooked excl (vm1' ++ var :: vm2))
        = stepLV (emitVar F S cooked excl x)
          (loopVars F S cooked excl (vm1' ++ vm2))
      rw [ih vm2]

theorem bgCore_skip {F S SB SC SE : PyVal} {cooked : List (String × PyVal)}
    {lic : Option String} {excl : List PyVal} {var : PyVal} {wv : List String}
    {vm1 vm2 : List PyVal}
    (hvar : emitVar F S cooked excl var = Except.ok ("", wv)) :
    ((bgCore F S SB SC SE cooked lic excl (PyVal.vlist (vm1 ++ var :: vm2))).map Prod.fst
      = (bgCore F S SB SC SE cooked lic excl (PyVal.vlist (vm1 ++ vm2))).map Prod.fst)
    ∧ (∀ s w, bgCore F S SB SC SE cooked lic excl (PyVal.vlist (vm1 ++ var :: vm2))
        = Except.ok (s, w) → wv ⊆ w) := by
  have hloop := loopVars_insert_skip hvar vm1 vm2
  cases hsp : pyIndexE cooked "license.spdx" with
  | error e =>
      constructor
      · simp only [bgCore, hsp]
      · intro s w hw
        simp only [bgCore, hsp] at hw
        simp at hw
  | ok spdx =>
      cases hsb : asStrE SB with
      | error e =>
          constructor
          · simp only [bgCore, hsp, hsb]
          · intro s w hw
            simp only [bgCore, hsp, hsb] at hw
            simp at hw
      | ok sb =>
          cases hl1 : loopVars F S cooked excl (vm1 ++ var :: vm2) with
          | error e =>
              have hl2 : loopVars F S cooked excl (vm1 ++ vm2) = Except.error e := by
                have hm := hloop.1
                rw [hl1] at hm
                cases hl2' : loopVars F S cooked excl (vm1 ++ vm2) with
                | error e2 =>
                    rw [hl2'] at hm
                    have he : e = e2 := by simpa [Except.map] using hm
                    rw [he]
                | ok p => rw [hl2'] at hm; simp [Except.map] at hm
              constructor
              · simp only [bgCore, hsp, hsb, hl1, hl2]
              · intro s w hw
                simp only [bgCore, hsp, hsb, hl1] at hw
                simp at hw
          | ok p1 =>
              obtain ⟨body, warns⟩ := p1
              have hm := hloop.1
              rw [hl1] at hm
              cases hl2 : loopVars F S cooked excl (vm1 ++ vm2) with
              | error e2 => rw [hl2] at hm; simp [Except.map] at hm
              | ok p2 =>
                  obtain ⟨body2, warns2⟩ := p2
                  rw [hl2] at hm
                  have hbod : body = body2 := by simpa [Except.map] using hm
                  subst hbod
                  constructor
                  · cases hse : asStrE SE with
                    | error e => simp only [bgCore, hsp, hsb, hl1, hl2, hse]
                    | ok se =>
                        simp only [bgCore, hsp, hsb, hl1, hl2, hse, Except.map]
                  · intro s w hw
                    simp only [bgCore, hsp, hsb, hl1] at hw
                    cases hse : asStrE SE with
                    | error e => rw [hse] at hw; simp at hw
                    | ok se =>
                        rw [hse] at hw
                        simp at hw
                        rw [← hw.2]
                        exact hloop.2 body warns hl1

theorem bgCore_noop {F S SB SC SE : PyVal} {cooked : List (String × PyVal)}
    {lic : Option String} {excl : List PyVal} {var : PyVal}
    {vm1 vm2 : List PyVal}
    (hvar : emitVar F S cooked excl var = Except.ok ("", [])) :
    bgCore F S SB SC SE cooked lic excl (PyVal.vlist (vm1 ++ var :: vm2))
      = bgCore F S SB SC SE cooked lic excl (PyVal.vlist (vm1 ++ vm2)) := by
  simp only [bgCore, loopVars_insert_noop hvar vm1 vm2]

/-- C6: when a var_map key has a null cooked value at emission time (and
is not excluded), backend_generate emits no line for it -- the generated
text equals that of the same backend with the entry removed -- and logs
the null-skip warning for it; in particular the literal texts None or null
are never substituted for its value. -/
theorem backend_generate_null_skip (env : Env) (b b2 cooked : List (String × PyVal))
    (lic : Option String) (excl : List PyVal) (vm1 vm2 : List PyVal)
    (k : String) (em : PyVal) (rest : List (String × PyVal))
    (hvm : pyGet b "var_map" = PyVal.vlist (vm1 ++ PyVal.vdict ((k, em) :: rest) :: vm2))
    (hvm2 : pyGet b2 "var_map" = PyVal.vlist (vm1 ++ vm2))
    (hf1 : pyGet b2 "format.number" = pyGet b "format.number")
    (hf2 : pyGet b2 "format.string" = pyGet b "format.string")
    (hf3 : pyGet b2 "source.begin" = pyGet b "source.begin")
    (hf4 : pyGet b2 "source.comment" = pyGet b "source.comment")
    (hf5 : pyGet b2 "source.end" = pyGet b "source.end")
    (hex : listContainsB excl (PyVal.vstr k) = false)
    (hnull : pyIndexE cooked k = Except.ok PyVal.none) :
    ((backend_generate env b cooked lic excl).map Prod.fst
      = (backend_generate env b2 cooked lic excl).map Prod.fst)
    ∧ (∀ s w, backend_generate env b cooked lic excl = Except.ok (s, w) →
        nullWarnMsg k ∈ w) := by
  have hvar : emitVar (pyGet b "format.number") (pyGet b "format.string") cooked excl
      (PyVal.vdict ((k, em) :: rest)) = Except.ok ("", [nullWarnMsg k]) := by
    simp [emitVar, hex, hnull]
  have hb : backend_generate env b cooked lic excl
      = bgCore (pyGet b "format.number") (pyGet b "format.string")
          (pyGet b "source.begin") (pyGet b "source.comment") (pyGet b "source.end")
          cooked lic excl
          (PyVal.vlist (vm1 ++ PyVal.vdict ((k, em) :: rest) :: vm2)) := by
    simp only [backend_generate, hvm]
  have hb2 : backend_generate env b2 cooked lic excl
      = bgCore (pyGet b "format.number") (pyGet b "format.string")
          (pyGet b "source.begin") (pyGet b "source.comment") (pyGet b "source.end")
          cooked lic excl (PyVal.vlist (vm1 ++ vm2)) := by
    simp only [backend_generate, hvm2, hf1, hf2, hf3, hf4, hf5]
  constructor
  · rw [hb, hb2]
    exact (bgCore_skip hvar).1
  · intro s w hw
    rw [hb] at hw
    exact (bgCore_skip hvar).2 s w hw (List.mem_singleton_self _)

def b6 : List (String × PyVal) :=
  [("format.number", PyVal.vstr "\x7b1\x7d\n"),
   ("format.string", PyVal.vstr "\x7b1\x7d\n"),
   ("source.begin", PyVal.vstr ""),
   ("source.comment", PyVal.vstr "c"),
   ("source.end", PyVal.vstr ""),
   ("var_map", PyVal.vlist
      [PyVal.vdict [("a", PyVal.vstr "A")], PyVal.vdict [("z", PyVal.vstr "Z")]])]

def b6' : List (String × PyVal) :=
  [("format.number", PyVal.vstr "\x7b1\x7d\n"),
   ("format.string", PyVal.vstr "\x7b1\x7d\n"),
   ("source.begin", PyVal.vstr ""),
   ("source.comment", PyVal.vstr "c"),
   ("source.end", PyVal.vstr ""),
   ("var_map", PyVal.vlist [PyVal.vdict [("a", PyVal.vstr "A")]])]

def cooked6 : List (String × PyVal) :=
  [("license.spdx", PyVal.none), ("a", PyVal.vint 1), ("z", PyVal.none)]

/-- Witness for C6: with z cooked to null, the rendered text equals that
of the backend without the z entry and the null warning for z is logged. -/
theorem backend_generate_null_skip_witness :
    ((backend_generate c1env b6 cooked6 Option.none []).map Prod.fst
      = (backend_generate c1env b6' cooked6 Option.none []).map Prod.fst)
    ∧ nullWarnMsg "z" ∈ ["emiting value 'z' is null"] := by
  have h := backend_generate_null_skip c1env b6 b6' cooked6 Option.none []
    [PyVal.vdict [("a", PyVal.vstr "A")]] [] "z" (PyVal.vstr "Z") []
    rfl rfl rfl rfl rfl rfl rfl rfl rfl
  exact ⟨h.1, h.2 "1\n\nc generated using verhel.py c\n"
    ["emiting value 'z' is null"] (by rfl)⟩

/-- C7: a var_map entry whose key is in the excluded set contributes no
format line and no warning: rendering equals rendering with the entry
removed, whatever the key's cooked value is (even absent). -/
theorem backend_generate_excluded_skip (env : Env) (b b2 cooked : List (String × PyVal))
    (lic : Option String) (excl : List PyVal) (vm1 vm2 : List PyVal)
    (k : String) (em : PyVal) (rest : List (String × PyVal))
    (hvm : pyGet b "var_map" = PyVal.vlist (vm1 ++ PyVal.vdict ((k, em) :: rest) :: vm2))
    (hvm2 : pyGet b2 "var_map" = PyVal.vlist (vm1 ++ vm2))
    (hf1 : pyGet b2 "format.number" = pyGet b "format.number")
    (hf2 : pyGet b2 "format.string" = pyGet b "format.string")
    (hf3 : pyGet b2 "source.begin" = pyGet b "source.begin")
    (hf4 : pyGet b2 "source.comment" = pyGet b "source.comment")
    (hf5 : pyGet b2 "source.end" = pyGet b "source.end")
    (hex : listContainsB excl (PyVal.vstr k) = true) :
    backend_generate env b cooked lic excl = backend_generate env b2 cooked lic excl := by
  have hvar : emitVar (pyGet b "format.number") (pyGet b "format.string") cooked excl
      (PyVal.vdict ((k, em) :: rest)) = Except.ok ("", []) := by
    simp [emitVar, hex]
  have hb : backend_generate env b cooked lic excl
      = bgCore (pyGet b "format.number") (pyGet b "format.string")
          (pyGet b "source.begin") (pyGet b "source.comment") (pyGet b "source.end")
          cooked lic excl
          (PyVal.vlist (vm1 ++ PyVal.vdict ((k, em) :: rest) :: vm2)) := by
    simp only [backend_generate, hvm]
  have hb2 : backend_generate env b2 cooked lic excl
      = bgCore (pyGet b "format.number") (pyGet b "format.string")
          (pyGet b "source.begin") (pyGet b "source.comment") (pyGet b "source.end")
          cooked lic excl (PyVal.vlist (vm1 ++ vm2)) := by
    simp only [backend_generate, hvm2, hf1, hf2, hf3, hf4, hf5]
  rw [hb, hb2]
  exact bgCore_noop hvar

def b7 : List (String × PyVal) :=
  [("format.number", PyVal.vstr "\x7b1\x7d\n"),
   ("format.string", PyVal.vstr "\x7b1\x7d\n"),
   ("source.begin", PyVal.vstr ""),
   ("source.comment", PyVal.vstr "c"),
   ("source.end", PyVal.vstr ""),
   ("var_map", PyVal.vlist
      [PyVal.vdict [("a", PyVal.vstr "A")], PyVal.vdict [("z", PyVal.vstr "Z")]])]

def b7' : List (String × PyVal) :=
  [("format.number", PyVal.vstr "\x7b1\x7d\n"),
   ("format.string", PyVal.vstr "\x7b1\x7d\n"),
   ("source.begin", PyVal.vstr ""),
   ("source.comment", PyVal.vstr "c"),
   ("source.end", PyVal.vstr ""),
   ("var_map", PyVal.vlist [PyVal.vdict [("a", PyVal.vstr "A")]])]

def cooked7 : List (String × PyVal) :=
  [("license.spdx", PyVal.none), ("a", PyVal.vint 1), ("z", PyVal.vstr "zz")]

/-- Witness for C7: excluding z renders exactly as if the z entry were
absent from the var_map, although z has a cooked value. -/
theorem backend_generate_excluded_skip_witness :
    backend_generate c1env b7 cooked7 Option.none [PyVal.vstr "z"]
      = backend_generate c1env b7' cooked7 Option.none [PyVal.vstr "z"] :=
  backend_generate_excluded_skip c1env b7 b7' cooked7 Option.none [PyVal.vstr "z"]
    [PyVal.vdict [("a", PyVal.vstr "A")]] [] "z" (PyVal.vstr "Z") []
    rfl rfl rfl rfl rfl rfl rfl rfl

/-- The var_map keys of a backend descriptor (first key of each entry),
the only cooked keys backend_generate can read besides license.spdx. -/
def varMapKeysL (vars : List PyVal) : List String :=
  vars.filterMap (fun v =>
    match v with
    | PyVal.vdict ((k, _) :: _) => some k
    | _ => Option.none)

def varMapKeysOf (b : List (String × PyVal)) : List String :=
  match pyGet b "var_map" with
  | PyVal.vlist vs => varMapKeysL vs
  | _ => []

theorem varMapKeysL_tail_subset {v : PyVal} {vs : List PyVal} :
    varMapKeysL vs ⊆ varMapKeysL (v :: vs) := by
  intro kk hkk
  simp only [varMapKeysL, List.filterMap_cons]
  cases hfv : (match v with
    | PyVal.vdict ((k, _) :: _) => some k
    | _ => Option.none) with
  | none => exact hkk
  | some b => exact List.mem_cons_of_mem b hkk

theorem loopVars_agree {F S : PyVal} {c1 c2 : List (String × PyVal)}
    {excl : List PyVal} :
    ∀ vars : List PyVal,
      (∀ kk ∈ varMapKeysL vars, pyIndexE c1 kk = pyIndexE c2 kk) →
      loopVars F S c1 excl vars = loopVars F S c2 excl vars := by
  intro vars
  induction vars with
  | nil => intro h; rfl
  | cons v vs ih =>
      intro h
      have htail := fun kk hkk => h kk (varMapKeysL_tail_subset hkk)
      show stepLV (emitVar F S c1 excl v) (loopVars F S c1 excl vs)
        = stepLV (emitVar F S c2 excl v) (loopVars F S c2 excl vs)
      rw [ih htail]
      have hev : emitVar F S c1 excl v = emitVar F S c2 excl v := by
        cases v with
        | vdict kvs =>
            cases kvs with
            | nil => rfl
            | cons kv r =>
                obtain ⟨k, em⟩ := kv
                have hk : pyIndexE c1 k = pyIndexE c2 k :=
                  h k (by simp [varMapKeysL, List.filterMap_cons])
                simp only [emitVar, hk]
        | none => rfl
        | vint n => rfl
        | vstr s => rfl
        | vbool bb => rfl
        | vlist l => rfl
      rw [hev]

/-- C8: backend_generate is deterministic in its arguments.  Two runs
under arbitrary (different) process environments, with cooked value sets
that agree on the var_map keys and on license.spdx, produce the same
source text and the same warnings: the output depends on nothing outside
the backend descriptor, the cooked values it reads, the license text and
the exclusion set. -/
theorem backend_generate_deterministic (e1 e2 : Env)
    (b c1 c2 : List (String × PyVal)) (lic : Option String) (excl : List PyVal)
    (hvm : ∀ kk ∈ varMapKeysOf b, pyIndexE c1 kk = pyIndexE c2 kk)
    (hsp : pyIndexE c1 "license.spdx" = pyIndexE c2 "license.spdx") :
    backend_generate e1 b c1 lic excl = backend_generate e2 b c2 lic excl := by
  simp only [backend_generate, bgCore]
  rw [hsp]
  cases hv : pyGet b "var_map" with
  | vlist vs =>
      have h' : ∀ kk ∈ varMapKeysL vs, pyIndexE c1 kk = pyIndexE c2 kk := by
        intro kk hkk
        exact hvm kk (by simpa [varMapKeysOf, hv] using hkk)
      simp only [loopVars_agree vs h']
  | none => rfl
  | vint n => rfl
  | vstr s => rfl
  | vbool bb => rfl
  | vdict kvs => rfl

def env8b : Env :=
  ⟨Option.none, Option.none, Option.none, fun _ => true, false,
   fun _ => CmdResult.ok 0 "", fun _ => some "text", "1999-12-31", "23:59:59",
   "/other", fun _ => false, false⟩

def b8 : List (String × PyVal) :=
  [("format.number", PyVal.vstr "\x7b1\x7d\n"),
   ("format.string", PyVal.vstr "\x7b1\x7d\n"),
   ("source.begin", PyVal.vstr ""),
   ("source.comment", PyVal.vstr "c"),
   ("source.end", PyVal.vstr ""),
   ("var_map", PyVal.vlist [PyVal.vdict [("a", PyVal.vstr "A")]])]

def cooked8a : List (String × PyVal) :=
  [("license.spdx", PyVal.none), ("a", PyVal.vint 1), ("x", PyVal.vstr "junk")]

def cooked8b : List (String × PyVal) :=
  [("a", PyVal.vint 1), ("license.spdx", PyVal.none)]

/-- Witness for C8: two entirely different process environments and two
cooked sets that agree only on the read keys render identically. -/
theorem backend_generate_deterministic_witness :
    backend_generate c1env b8 cooked8a Option.none []
      = backend_generate env8b b8 cooked8b Option.none [] := by
  apply backend_generate_deterministic
  · intro kk hkk
    have hk : kk = "a" := by
      simpa [varMapKeysOf, varMapKeysL, pyGet, b8] using hkk
    subst hk
    rfl
  · rfl

/-- The run_wrapper helper local to VerHel.get_vcs_info (src/verhel.py
lines 731-751), for a single query: fetch the command object (an
AttributeError escapes when it is not a dict), fetch cmd and ret_codes,
return None when cmd is null, run the command returning None on any
execution failure (and on a non-string cmd, whose shlex.split raises
inside the caught region), and on completion return the stripped output
when the exit code is in ret_codes, else None.  A non-list ret_codes
raises in the uncaught else-block (membership in a dict of string keys is
merely false for an int). -/
def run_wrapper (run : String → CmdResult) (frontend : List (String × PyVal))
    (cmd_name : String) : Except String (Option String) :=
  match pyGet frontend cmd_name with
  | PyVal.vdict cmd_obj =>
      let rcs := pyGet cmd_obj "ret_codes"
      match pyGet cmd_obj "cmd" with
      | PyVal.none => Except.ok Option.none
      | PyVal.vstr c =>
          match run c with
          | CmdResult.err => Except.ok Option.none
          | CmdResult.ok ret out =>
              match rcs with
              | PyVal.vlist l =>
                  if listContainsB l (PyVal.vint ret) then Except.ok (some (pyStrip out))
                  else Except.ok Option.none
              | PyVal.vdict _ => Except.ok Option.none
              | _ => Except.error "TypeError: ret_codes is not a container"
      | _ => Except.ok Option.none
  | _ => Except.error "AttributeError: get"

def optStr : Option String → PyVal
  | some s => PyVal.vstr s
  | Option.none => PyVal.none

/-- VerHel.get_vcs_info (src/verhel.py lines 730-765): one query per
field in source order; commit_count is parsed with int(), whose
ValueError escapes the function (it is raised in the uncaught else-block). -/
def get_vcs_info (run : String → CmdResult) (frontend : List (String × PyVal))
    (frontend_name : String) : Except String (List (String × PyVal)) :=
  match run_wrapper run frontend "get.commit_hash" with
  | Except.error e => Except.error e
  | Except.ok ch =>
  match run_wrapper run frontend "get.short_hash" with
  | Except.error e => Except.error e
  | Except.ok sh =>
  match run_wrapper run frontend "get.tag" with
  | Except.error e => Except.error e
  | Except.ok tg =>
  match run_wrapper run frontend "get.branch" with
  | Except.error e => Except.error e
  | Except.ok br =>
  match run_wrapper run frontend "get.commit_count" with
  | Except.error e => Except.error e
  | Except.ok ccs =>
      match ccs with
      | Option.none =>
          Except.ok
            [("name", PyVal.vstr frontend_name),
             ("commit_hash", optStr ch), ("short_hash", optStr sh),
             ("tag", optStr tg), ("branch", optStr br),
             ("commit_count", PyVal.none)]
      | some s =>
          match pyInt s with
          | some n =>
              Except.ok
                [("name", PyVal.vstr frontend_name),
                 ("commit_hash", optStr ch), ("short_hash", optStr sh),
                 ("tag", optStr tg), ("branch", optStr br),
                 ("commit_count", PyVal.vint n)]
          | Option.none => Except.error "ValueError: invalid literal for int"

/-- The git frontend descriptor embedded in FRONTENDS_DESC (src/verhel.py
lines 45-76); note get.tag accepts exit codes 0 and 128. -/
def gitFrontend : List (String × PyVal) :=
  [("version", PyVal.vstr "1.0.0"),
   ("exe", PyVal.vstr "git"),
   ("get.repo", PyVal.vdict
      [("cmd", PyVal.vstr "git rev-parse --git-dir"),
       ("ret_codes", PyVal.vlist [PyVal.vint 0])]),
   ("get.commit_hash", PyVal.vdict
      [("cmd", PyVal.vstr "git rev-parse HEAD"),
       ("ret_codes", PyVal.vlist [PyVal.vint 0])]),
   ("get.short_hash", PyVal.vdict
      [("cmd", PyVal.vstr "git rev-parse --short HEAD"),
       ("ret_codes", PyVal.vlist [PyVal.vint 0])]),
   ("get.tag", PyVal.vdict
      [("cmd", PyVal.vstr "git describe --tags --abbrev=0 --exact-match"),
       ("ret_codes", PyVal.vlist [PyVal.vint 0, PyVal.vint 128])]),
   ("get.branch", PyVal.vdict
      [("cmd", PyVal.vstr "git rev-parse --abbrev-ref HEAD"),
       ("ret_codes", PyVal.vlist [PyVal.vint 0])]),
   ("get.commit_count", PyVal.vdict
      [("cmd", PyVal.vstr "git rev-list --count HEAD"),
       ("ret_codes", PyVal.vlist [PyVal.vint 0])])]

/-- The command environment of the C4 counterexample: git reports no tag
(git describe exits 128 with empty stdout) while the other queries
succeed. -/
def c4run (c : String) : CmdResult :=
  if c = "git describe --tags --abbrev=0 --exact-match" then CmdResult.ok 128 ""
  else if c = "git rev-parse HEAD" then CmdResult.ok 0 "deadbeef\n"
  else if c = "git rev-parse --short HEAD" then CmdResult.ok 0 "dead\n"
  else if c = "git rev-parse --abbrev-ref HEAD" then CmdResult.ok 0 "main\n"
  else if c = "git rev-list --count HEAD" then CmdResult.ok 0 "42\n"
  else CmdResult.err

/-- Counterexample for C4 as stated: when get.tag exits with the
accepted-but-nonzero code 128, the resulting tag field is the stripped
stdout (the empty string here), not null -- run_wrapper returns
out.strip() for every accepted exit code. -/
theorem vcs_tag_accepted_nonzero_cex :
    listContainsB [PyVal.vint 0, PyVal.vint 128] (PyVal.vint 128) = true
    ∧ (128 : Int) ≠ 0
    ∧ (get_vcs_info c4run gitFrontend "git").map (fun i => pyGet i "tag")
        = Except.ok (PyVal.vstr "")
    ∧ PyVal.vstr "" ≠ PyVal.none := by
  refine ⟨rfl, by decide, by rfl, ?_⟩
  intro h
  exact PyVal.noConfusion h

theorem run_wrapper_eval (run : String → CmdResult)
    (frontend cmd_obj : List (String × PyVal)) (cmd_name c : String)
    (rcl : List PyVal) (ret : Int) (out : String)
    (h1 : pyGet frontend cmd_name = PyVal.vdict cmd_obj)
    (h2 : pyGet cmd_obj "cmd" = PyVal.vstr c)
    (h3 : pyGet cmd_obj "ret_codes" = PyVal.vlist rcl)
    (h4 : run c = CmdResult.ok ret out)
    (h5 : listContainsB rcl (PyVal.vint ret) = true) :
    run_wrapper run frontend cmd_name = Except.ok (some (pyStrip out)) := by
  simp only [run_wrapper, h1, h2, h3, h4, h5]
  simp

/-- C4 (amended): during VCS querying with the git frontend, when get.tag
exits with the accepted-but-nonzero code 128, the tag field resolves to
the command's stripped stdout (the empty string when nothing was printed),
not to null, while branch and commit_hash, whose commands succeed, resolve
to their stripped outputs. -/
theorem vcs_tag_accepted_nonzero (run : String → CmdResult)
    (hout sout tout bout cout : String) (n : Int)
    (hch : run "git rev-parse HEAD" = CmdResult.ok 0 hout)
    (hsh : run "git rev-parse --short HEAD" = CmdResult.ok 0 sout)
    (htag : run "git describe --tags --abbrev=0 --exact-match" = CmdResult.ok 128 tout)
    (hbr : run "git rev-parse --abbrev-ref HEAD" = CmdResult.ok 0 bout)
    (hcc : run "git rev-list --count HEAD" = CmdResult.ok 0 cout)
    (hparse : pyInt (pyStrip cout) = some n) :
    (get_vcs_info run gitFrontend "git").map
        (fun i => (pyGet i "tag", pyGet i "branch", pyGet i "commit_hash"))
      = Except.ok (PyVal.vstr (pyStrip tout), PyVal.vstr (pyStrip bout), PyVal.vstr (pyStrip hout)) := by
  have e1 := run_wrapper_eval run gitFrontend
    [("cmd", PyVal.vstr "git rev-parse HEAD"),
     ("ret_codes", PyVal.vlist [PyVal.vint 0])]
    "get.commit_hash" "git rev-parse HEAD" [PyVal.vint 0] 0 hout
    rfl rfl rfl hch rfl
  have e2 := run_wrapper_eval run gitFrontend
    [("cmd", PyVal.vstr "git rev-parse --short HEAD"),
     ("ret_codes", PyVal.vlist [PyVal.vint 0])]
    "get.short_hash" "git rev-parse --short HEAD" [PyVal.vint 0] 0 sout
    rfl rfl rfl hsh rfl
  have e3 := run_wrapper_eval run gitFrontend
    [("cmd", PyVal.vstr "git describe --tags --abbrev=0 --exact-match"),
     ("ret_codes", PyVal.vlist [PyVal.vint 0, PyVal.vint 128])]
    "get.tag" "git describe --tags --abbrev=0 --exact-match"
    [PyVal.vint 0, PyVal.vint 128] 128 tout
    rfl rfl rfl htag rfl
  have e4 := run_wrapper_eval run gitFrontend
    [("cmd", PyVal.vstr "git rev-parse --abbrev-ref HEAD"),
     ("ret_codes", PyVal.vlist [PyVal.vint 0])]
    "get.branch" "git rev-parse --abbrev-ref HEAD" [PyVal.vint 0] 0 bout
    rfl rfl rfl hbr rfl
  have e5 := run_wrapper_eval run gitFrontend
    [("cmd", PyVal.vstr "git rev-list --count HEAD"),
     ("ret_codes", PyVal.vlist [PyVal.vint 0])]
    "get.commit_count" "git rev-list --count HEAD" [PyVal.vint 0] 0 cout
    rfl rfl rfl hcc rfl
  simp only [get_vcs_info, e1, e2, e3, e4, e5, hparse]
  simp [pyGet, optStr, Except.map]

/-- Witness for the amended C4 at the concrete no-tag environment. -/
theorem vcs_tag_accepted_nonzero_witness :
    (get_vcs_info c4run gitFrontend "git").map
        (fun i => (pyGet i "tag", pyGet i "branch", pyGet i "commit_hash"))
      = Except.ok (PyVal.vstr "", PyVal.vstr "main", PyVal.vstr "deadbeef") := by
  have h := vcs_tag_accepted_nonzero c4run "deadbeef\n" "dead\n" "" "main\n" "42\n" 42
    rfl rfl rfl rfl rfl (by rfl)
  simpa using h

/-- The ExitCodes table (src/verhel.py lines 125-141), for the codes the
generate and set commands can return. -/
def SUCCESS : Nat := 0
def FAILED_TO_LOAD_PROJECTS : Nat := 1
def FAILED_TO_SAVE_PROJECTS : Nat := 2
def FAILED_TO_LOAD_FRONTENDS : Nat := 3
def FAILED_TO_LOAD_BACKENDS : Nat := 4
def PROJECT_DOESNT_EXISTS : Nat := 5
def PROJECT_VALIDATION_FAILED : Nat := 7
def FRONTEND_DOESNT_EXISTS : Nat := 8
def BACKEND_DOESNT_EXISTS : Nat := 9
def FAILED_TO_ENTER_PROJECT_DIR : Nat := 10
def VERSION_CONTROL_NOT_INSTALLED : Nat := 11
def REPO_DOESNT_EXISTS : Nat := 12
def INVALID_KEY : Nat := 13
def INVALID_VALUE : Nat := 14
def VERSION_IS_NULL : Nat := 15

/-- The Python x is None test. -/
def isNone : PyVal → Bool
  | PyVal.none => true
  | _ => false

theorem isNone_false {v : PyVal} : isNone v = false ↔ v ≠ PyVal.none := by
  cases v <;> simp [isNone]

/-- The store lookup of use_global_desc_values (src/verhel.py lines
591-593): a missing (or stored-null) global name means no fallback is
applied.  A present non-dict value would raise an AttributeError in the
iteration, but generate only reaches this point after the global passed
validation, which requires a dict. -/
def globLookup (ps : List (String × PyVal)) (g : String) :
    Option (List (String × PyVal)) :=
  match pyGet ps g with
  | PyVal.vdict gd => some gd
  | _ => Option.none

/-- The descriptor generate works with after the optional global pass
(src/verhel.py lines 1080-1082). -/
def resolveGlobals (ps d : List (String × PyVal)) (glob : Option String) :
    List (String × PyVal) :=
  match glob with
  | Option.none => d
  | some g => use_global_desc_values d (globLookup ps g)

/-- get_build_info (src/verhel.py lines 767-771) with the clock made
explicit. -/
def get_build_info (env : Env) : List (String × PyVal) :=
  [("date", PyVal.vstr env.buildDate), ("time", PyVal.vstr env.buildTime)]

/-- Inner loop of check_if_backends_exists (src/verhel.py lines 632-644)
over one entry's items: false when a backend is missing from the store and
the fatal flag is set (the VerHelError raise), true otherwise. -/
def check_backends_pairs (bs : List (String × PyVal)) (fatal : Bool) :
    List (String × PyVal) → Bool
  | [] => true
  | (n, _) :: r =>
      match pyGet bs n with
      | PyVal.none => if fatal then false else check_backends_pairs bs fatal r
      | _ => check_backends_pairs bs fatal r

def check_backends (bs : List (String × PyVal)) (fatal : Bool) :
    List PyVal → Except String Bool
  | [] => Except.ok true
  | e :: rest =>
      match e with
      | PyVal.vdict kvs =>
          if check_backends_pairs bs fatal kvs then check_backends bs fatal rest
          else Except.ok false
      | _ => Except.error "AttributeError: items"

/-- Membership of an exit code in a ret_codes value.  A non-list raises a
TypeError in Python; inside the repo check that raise is caught by the
bare except of generate (src/verhel.py lines 1121-1124) and maps to the
same repo-missing outcome as false does here. -/
def retInCodes (ret : Int) (rcs : PyVal) : Bool :=
  match rcs with
  | PyVal.vlist l => listContainsB l (PyVal.vint ret)
  | _ => false

/-- check_if_project_repo_exists (src/verhel.py lines 714-728) as seen
through generate's bare except: true when the get.repo command ran and
exited with an accepted code, false for every failure (missing or
malformed command object included). -/
def repoCheck (env : Env) (fd : List (String × PyVal)) : Bool :=
  match pyGet fd "get.repo" with
  | PyVal.vdict ro =>
      match pyGet ro "cmd" with
      | PyVal.vstr c =>
          match env.run c with
          | CmdResult.err => false
          | CmdResult.ok ret _ => retInCodes ret (pyGet ro "ret_codes")
      | _ => false
  | _ => false

/-- One backends entry's items inside verhel_generate_sources
(src/verhel.py lines 954-977): look the backend up, render, create the
output path and write; a missing backend is logged and skipped, a failed
write is logged and not counted.  Returns the success count and the
(path, content) writes performed. -/
def genEntryPairs (env : Env) (bs cooked : List (String × PyVal))
    (license_text : Option String) (exclude : List PyVal) :
    List (String × PyVal) → Except String (Nat × List (String × String))
  | [] => Except.ok (0, [])
  | (bk_name, bk_output) :: rest =>
      match pyGet bs bk_name with
      | PyVal.none => genEntryPairs env bs cooked license_text exclude rest
      | PyVal.vdict bd =>
          match backend_generate env bd cooked license_text exclude with
          | Except.error e => Except.error e
          | Except.ok (buffer, _) =>
              match bk_output with
              | PyVal.vstr out =>
                  match genEntryPairs env bs cooked license_text exclude rest with
                  | Except.error e => Except.error e
                  | Except.ok (n, ws) =>
                      if env.writeOk out then Except.ok (n + 1, (out, buffer) :: ws)
                      else Except.ok (n, ws)
              | _ => Except.error "TypeError: invalid output path"
      | _ => Except.error "AttributeError: backend is not a dict"

def genLoop (env : Env) (bs cooked : List (String × PyVal))
    (license_text : Option String) (exclude : List PyVal) :
    List PyVal → Except String (Nat × List (String × String))
  | [] => Except.ok (0, [])
  | e :: rest =>
      match e with
      | PyVal.vdict kvs =>
          match genEntryPairs env bs cooked license_text exclude kvs with
          | Except.error er => Except.error er
          | Except.ok (n1, w1) =>
              match genLoop env bs cooked license_text exclude rest with
              | Except.error er => Except.error er
              | Except.ok (n2, w2) => Except.ok (n1 + n2, w1 ++ w2)
      | _ => Except.error "AttributeError: items"

/-- VerHel.verhel_generate_sources (src/verhel.py lines 928-978): build
info, license read (desc is indexed, a KeyError escapes when license.file
is absent; an unreadable file is logged and ignored; a non-string value is
unreachable after validation), cooking, exclusion list (null becomes the
empty list; a non-list is unreachable after validation), then one render
and write per configured backend output. -/
def verhel_generate_sources (env : Env) (bs : List (String × PyVal))
    (project_name : String) (desc vcs_info : List (String × PyVal)) :
    Except String (Nat × List (String × String)) :=
  let build_info := get_build_info env
  match pyIndexE desc "license.file" with
  | Except.error e => Except.error e
  | Except.ok lf =>
      let license_text : Option String :=
        match lf with
        | PyVal.none => Option.none
        | PyVal.vstr p => env.readFile p
        | _ => Option.none
      match cook_info env project_name desc build_info vcs_info with
      | Except.error e => Except.error e
      | Except.ok cooked =>
          let exclude : List PyVal :=
            match pyGet desc "exclude" with
            | PyVal.vlist xs => xs
            | _ => []
          match pyGet desc "backends" with
          | PyVal.vlist entries => genLoop env bs cooked license_text exclude entries
          | _ => Except.error "TypeError: backends is not iterable"

/-- The tail of VerHel.generate from the backends check on (src/verhel.py
lines 1098-1138): a null or empty backends list is a warned no-op that
returns SUCCESS with no writes; otherwise load the backend store, check
the configured backends, enter the project directory, run the optional
repo check and VCS query, and render.  The success tally only affects
logging; the exit code is SUCCESS (a non-list backends value is
unreachable after validation). -/
def generate_with_frontend (env : Env) (project_name : String)
    (d1 : List (String × PyVal)) (fatal : Bool)
    (fopt : Option (List (String × PyVal) × String)) :
    Except String (Nat × List (String × String)) :=
  match pyGet d1 "backends" with
  | PyVal.vlist bl =>
      if 0 < bl.length then
        match env.backends with
        | Option.none => Except.ok (FAILED_TO_LOAD_BACKENDS, [])
        | some bs =>
            match check_backends bs fatal bl with
            | Except.error e => Except.error e
            | Except.ok false => Except.ok (BACKEND_DOESNT_EXISTS, [])
            | Except.ok true =>
                if env.chdirOk then
                  match fopt with
                  | Option.none =>
                      match verhel_generate_sources env bs project_name d1 [] with
                      | Except.error e => Except.error e
                      | Except.ok (_, ws) => Except.ok (SUCCESS, ws)
                  | some (fd, fname) =>
                      if repoCheck env fd then
                        match get_vcs_info env.run fd fname with
                        | Except.error e => Except.error e
                        | Except.ok vcs_info =>
                            match verhel_generate_sources env bs project_name d1 vcs_info with
                            | Except.error e => Except.error e
                            | Except.ok (_, ws) => Except.ok (SUCCESS, ws)
                      else Except.ok (REPO_DOESNT_EXISTS, [])
                else Except.ok (FAILED_TO_ENTER_PROJECT_DIR, [])
      else Except.ok (SUCCESS, [])
  | _ => Except.ok (SUCCESS, [])

/-- VerHel.generate after validation and global resolution (src/verhel.py
lines 1084-1096): version presence, then the frontend steps when the
project declares one: load the frontend store, look the frontend up and
check its executable on the path.  (A non-string frontend name misses the
string-keyed store lookup; list or dict names would raise, unreachable
after validation.) -/
def generate_after_validate (env : Env) (project_name : String)
    (d1 : List (String × PyVal)) (fatal : Bool) :
    Except String (Nat × List (String × String)) :=
  if isNone (pyGet d1 "version.major") then Except.ok (VERSION_IS_NULL, [])
  else if isNone (pyGet d1 "version.minor") then Except.ok (VERSION_IS_NULL, [])
  else if isNone (pyGet d1 "version.patch") then Except.ok (VERSION_IS_NULL, [])
  else
    match pyGet d1 "frontend" with
    | PyVal.none => generate_with_frontend env project_name d1 fatal Option.none
    | PyVal.vstr s =>
        match env.frontends with
        | Option.none => Except.ok (FAILED_TO_LOAD_FRONTENDS, [])
        | some fs =>
            match pyGet fs s with
            | PyVal.none => Except.ok (FRONTEND_DOESNT_EXISTS, [])
            | PyVal.vdict fd =>
                match pyGet fd "exe" with
                | PyVal.vstr e =>
                    if env.which e then
                      generate_with_frontend env project_name d1 fatal (some (fd, s))
                    else Except.ok (VERSION_CONTROL_NOT_INSTALLED, [])
                | _ => Except.error "TypeError: which argument must be str"
            | _ => Except.error "AttributeError: frontend is not a dict"
    | _ =>
        match env.frontends with
        | Option.none => Except.ok (FAILED_TO_LOAD_FRONTENDS, [])
        | some _ => Except.ok (FRONTEND_DOESNT_EXISTS, [])

/-- VerHel.generate (src/verhel.py lines 1063-1138): load the project
store, find and validate the project, optionally validate and apply the
global descriptor, then continue with version, frontend and backend steps.
The result pairs the exit code with the output writes performed; an error
models an uncaught Python exception. -/
def generate (env : Env) (project_name : String) (glob_desc_name : Option String)
    (fatal_if_bk_not_impl : Bool) : Except String (Nat × List (String × String)) :=
  match env.projects with
  | Option.none => Except.ok (FAILED_TO_LOAD_PROJECTS, [])
  | some ps =>
      match pyGet ps project_name with
      | PyVal.none => Except.ok (PROJECT_DOESNT_EXISTS, [])
      | PyVal.vdict d0 =>
          match validate_project ps project_name with
          | Except.error _ => Except.ok (PROJECT_VALIDATION_FAILED, [])
          | Except.ok _ =>
              match glob_desc_name with
              | Option.none =>
                  generate_after_validate env project_name d0 fatal_if_bk_not_impl
              | some g =>
                  match validate_project ps g with
                  | Except.error _ => Except.ok (PROJECT_VALIDATION_FAILED, [])
                  | Except.ok _ =>
                      generate_after_validate env project_name
                        (use_global_desc_values d0 (globLookup ps g)) fatal_if_bk_not_impl
      | _ => Except.ok (PROJECT_VALIDATION_FAILED, [])

def c9desc : List (String × PyVal) :=
  [("frontend", PyVal.vstr "svn"),
   ("backends", PyVal.vlist []),
   ("version.major", PyVal.vint 1),
   ("version.minor", PyVal.vint 0),
   ("version.patch", PyVal.vint 0)]

def env9 : Env :=
  ⟨some [("p", PyVal.vdict c9desc)], some [("git", PyVal.vdict gitFrontend)],
   some [], fun _ => true, true, fun _ => CmdResult.err, fun _ => Option.none,
   "2021-01-01", "00:00:00", "/", fun _ => true, true⟩

/-- Counterexample for C9 as stated: a project that passes validation and
the version-presence check, with an empty backends list, still returns a
non-success exit code, because the frontend steps (store load, lookup,
executable check) run before the empty-backends early return -- here the
declared frontend svn is absent from the store. -/
theorem generate_noop_cex :
    validate_project [("p", PyVal.vdict c9desc)] "p" = Except.ok []
    ∧ pyGet c9desc "version.major" ≠ PyVal.none
    ∧ pyGet c9desc "version.minor" ≠ PyVal.none
    ∧ pyGet c9desc "version.patch" ≠ PyVal.none
    ∧ pyGet c9desc "backends" = PyVal.vlist []
    ∧ generate env9 "p" Option.none false = Except.ok (FRONTEND_DOESNT_EXISTS, [])
    ∧ FRONTEND_DOESNT_EXISTS ≠ SUCCESS := by
  refine ⟨by rfl, ?_, ?_, ?_, by rfl, by rfl, by decide⟩
  · intro h; simp [c9desc, pyGet] at h
  · intro h; simp [c9desc, pyGet] at h
  · intro h; simp [c9desc, pyGet] at h

/-- C9 (amended): for every project that passes validation and the
version-presence check, and whose frontend steps do not fail (the
frontend is null, or the frontend store loads and contains it and its
executable is installed), a null/absent or empty backends list makes
generate a no-op: it performs no output writes and returns SUCCESS. -/
theorem generate_noop_success (env : Env) (ps d : List (String × PyVal))
    (pname : String) (glob : Option String) (fatal : Bool) (w : List String)
    (hps : env.projects = some ps)
    (hd : pyGet ps pname = PyVal.vdict d)
    (hval : validate_project ps pname = Except.ok w)
    (hglob : glob = Option.none ∨
       ∃ g w2, glob = some g ∧ validate_project ps g = Except.ok w2)
    (hv1 : pyGet (resolveGlobals ps d glob) "version.major" ≠ PyVal.none)
    (hv2 : pyGet (resolveGlobals ps d glob) "version.minor" ≠ PyVal.none)
    (hv3 : pyGet (resolveGlobals ps d glob) "version.patch" ≠ PyVal.none)
    (hfe : pyGet (resolveGlobals ps d glob) "frontend" = PyVal.none ∨
       ∃ s fs fd e, pyGet (resolveGlobals ps d glob) "frontend" = PyVal.vstr s ∧
         env.frontends = some fs ∧ pyGet fs s = PyVal.vdict fd ∧
         pyGet fd "exe" = PyVal.vstr e ∧ env.which e = true)
    (hbk : pyGet (resolveGlobals ps d glob) "backends" = PyVal.none ∨
       pyGet (resolveGlobals ps d glob) "backends" = PyVal.vlist []) :
    generate env pname glob fatal = Except.ok (SUCCESS, []) := by
  have hgen : generate env pname glob fatal
      = generate_after_validate env pname (resolveGlobals ps d glob) fatal := by
    rcases hglob with rfl | ⟨g, w2, rfl, hg⟩
    · simp [generate, hps, hd, hval, resolveGlobals]
    · simp [generate, hps, hd, hval, hg, resolveGlobals]
  rw [hgen]
  have hb1 : isNone (pyGet (resolveGlobals ps d glob) "version.major") = false :=
    isNone_false.mpr hv1
  have hb2 : isNone (pyGet (resolveGlobals ps d glob) "version.minor") = false :=
    isNone_false.mpr hv2
  have hb3 : isNone (pyGet (resolveGlobals ps d glob) "version.patch") = false :=
    isNone_false.mpr hv3
  have hwf : generate_with_frontend env pname (resolveGlobals ps d glob) fatal
      = fun fo => Except.ok (SUCCESS, []) := by
    funext fo
    rcases hbk with hbk' | hbk' <;> simp [generate_with_frontend, hbk']
  rcases hfe with hfe' | ⟨s, fs, fd, e, hfr, hfs, hfd, hexe, hwhich⟩
  · simp only [generate_after_validate, hb1, hb2, hb3, hfe', Bool.false_eq_true,
      if_false]
    rw [hwf]
  · simp only [generate_after_validate, hb1, hb2, hb3, hfr, hfs, hfd, hexe,
      hwhich, Bool.false_eq_true, if_false, if_true]
    rw [hwf]

def env9w : Env :=
  ⟨some [("q", PyVal.vdict
      [("version.major", PyVal.vint 1), ("version.minor", PyVal.vint 2),
       ("version.patch", PyVal.vint 3)])],
   Option.none, Option.none, fun _ => false, true, fun _ => CmdResult.err,
   fun _ => Option.none, "2021-01-01", "00:00:00", "/", fun _ => true, true⟩

/-- Witness for the amended C9: a valid project with a concrete version,
no frontend and no backends key generates nothing and reports success. -/
theorem generate_noop_success_witness :
    generate env9w "q" Option.none false = Except.ok (SUCCESS, []) := by
  apply generate_noop_success env9w
    [("q", PyVal.vdict
      [("version.major", PyVal.vint 1), ("version.minor", PyVal.vint 2),
       ("version.patch", PyVal.vint 3)])]
    [("version.major", PyVal.vint 1), ("version.minor", PyVal.vint 2),
     ("version.patch", PyVal.vint 3)]
    "q" Option.none false []
  · rfl
  · rfl
  · rfl
  · exact Or.inl rfl
  · intro h; simp [resolveGlobals, pyGet] at h
  · intro h; simp [resolveGlobals, pyGet] at h
  · intro h; simp [resolveGlobals, pyGet] at h
  · exact Or.inl rfl
  · exact Or.inl rfl

/-- VerHel.check_if_name_is_valid (src/verhel.py lines 794-808): a
backends-prefixed name yields the part after the prefix (invalid when
empty); any other name must be a key of the empty project.  none models
the VerHelError(INVALID_KEY) raise. -/
def check_if_name_is_valid (name : String) : Option String :=
  if "backends.".data.isPrefixOf name.data then
    let bk_name := String.mk (name.data.drop "backends.".data.length)
    if bk_name.length = 0 then Option.none else some bk_name
  else
    if name ∈ emptyKeysList then some name else Option.none

/-- Python dict assignment d[key] = v: update the first occurrence in
place, else append at the end. -/
def assocSet (d : List (String × PyVal)) (key : String) (v : PyVal) :
    List (String × PyVal) :=
  match d with
  | [] => [(key, v)]
  | (k0, v0) :: r =>
      if k0 = key then (k0, v) :: r else (k0, v0) :: assocSet r key v

/-- The backends branch of VerHel.set (src/verhel.py lines 1281-1301):
find the first entry holding the key with a non-null value; update it (or
remove it when the new value is the literal "null"); when no entry
matches, append a new entry (or do nothing for "null").  A non-dict entry
raises at the .get call. -/
def setBackendsList (key : String) (nv : String) :
    List PyVal → Except String (List PyVal)
  | [] =>
      if nv = "null" then Except.ok []
      else Except.ok [PyVal.vdict [(key, PyVal.vstr nv)]]
  | bk :: rest =>
      match bk with
      | PyVal.vdict kvs =>
          match pyGet kvs key with
          | PyVal.none =>
              match setBackendsList key nv rest with
              | Except.error e => Except.error e
              | Except.ok r => Except.ok (bk :: r)
          | _ =>
              if nv = "null" then Except.ok rest
              else Except.ok (PyVal.vdict (assocSet kvs key (PyVal.vstr nv)) :: rest)
      | _ => Except.error "AttributeError: get"

/-- save_projects at the end of set (src/verhel.py lines 1318-1322): the
store now holding the mutated descriptor is serialized; a failed write
returns the save-failure code with no save event recorded. -/
def save_projects_step (env : Env) (ps : List (String × PyVal))
    (project_name : String) (d' : List (String × PyVal)) :
    Except String (Nat × Option (List (String × PyVal)) × List (List (String × PyVal))) :=
  let ps' := assocSet ps project_name (PyVal.vdict d')
  if env.saveOk then Except.ok (SUCCESS, some ps', [ps'])
  else Except.ok (FAILED_TO_SAVE_PROJECTS, some ps', [])

/-- VerHel.set (src/verhel.py lines 1260-1330): name check, store load,
project lookup, then either the backends branch (note it tests the
already-stripped key, so plain backends.NAME properties reach the default
lookup and raise a KeyError, modelled as an error) or the plain-key
branch: keys whose default-project value is an int must parse with int(),
else the invalid-value code is returned before any mutation or save.  The
result carries the exit code, the in-memory store at exit (none when the
load never happened) and the store snapshots saved to disk. -/
def set_cmd (env : Env) (project_name property_name new_value : String) :
    Except String (Nat × Option (List (String × PyVal)) × List (List (String × PyVal))) :=
  match check_if_name_is_valid property_name with
  | Option.none => Except.ok (INVALID_KEY, Option.none, [])
  | some key =>
      match env.projects with
      | Option.none => Except.ok (FAILED_TO_LOAD_PROJECTS, Option.none, [])
      | some ps =>
          match pyGet ps project_name with
          | PyVal.none => Except.ok (PROJECT_DOESNT_EXISTS, some ps, [])
          | PyVal.vdict d =>
              if "backends.".data.isPrefixOf key.data then
                match pyGet d "backends" with
                | PyVal.vlist bks =>
                    match setBackendsList key new_value bks with
                    | Except.error e => Except.error e
                    | Except.ok bks' =>
                        save_projects_step env ps project_name
                          (assocSet d "backends" (PyVal.vlist bks'))
                | _ => Except.error "TypeError: backends is not iterable"
              else
                match pyIndexE default_project key with
                | Except.error e => Except.error e
                | Except.ok dv =>
                    match dv with
                    | PyVal.vint _ =>
                        match pyInt new_value with
                        | Option.none => Except.ok (INVALID_VALUE, some ps, [])
                        | some n =>
                            save_projects_step env ps project_name
                              (assocSet d key (PyVal.vint n))
                    | _ =>
                        save_projects_step env ps project_name
                          (assocSet d key (PyVal.vstr new_value))
          | _ => Except.error "AttributeError: get"

theorem emptyKeys_not_backends_pre :
    ∀ k ∈ emptyKeysList, "backends.".data.isPrefixOf k.data = false := by
  decide

/-- C10: for an existing project and a key whose default-project value is
an integer, set with a new value that does not parse as an integer
returns the invalid-value exit code, leaves the in-memory store (and so
the project descriptor) unchanged, and never invokes save. -/
theorem set_invalid_int_value (env : Env) (ps d : List (String × PyVal))
    (pname key nv : String) (m : Int)
    (hps : env.projects = some ps)
    (hd : pyGet ps pname = PyVal.vdict d)
    (hkey : key ∈ emptyKeysList)
    (hdef : pyIndexE default_project key = Except.ok (PyVal.vint m))
    (hparse : pyInt nv = Option.none) :
    set_cmd env pname key nv = Except.ok (INVALID_VALUE, some ps, []) := by
  have hpre := emptyKeys_not_backends_pre key hkey
  have hname : check_if_name_is_valid key = some key := by
    simp [check_if_name_is_valid, hpre, hkey]
  simp only [set_cmd, hname, hps, hd, hpre, hdef, hparse]
  simp

def env10 : Env :=
  ⟨some [("p", PyVal.vdict [])], Option.none, Option.none, fun _ => false,
   true, fun _ => CmdResult.err, fun _ => Option.none, "2021-01-01",
   "00:00:00", "/", fun _ => true, true⟩

/-- Witness for C10: setting version.major to the non-integer abc is
rejected with the invalid-value code, the store stays as loaded and no
save happens. -/
theorem set_invalid_int_value_witness :
    set_cmd env10 "p" "version.major" "abc"
      = Except.ok (INVALID_VALUE, some [("p", PyVal.vdict [])], []) :=
  set_invalid_int_value env10 [("p", PyVal.vdict [])] [] "p" "version.major"
    "abc" 0 rfl rfl (by decide) rfl rfl
